import Mathlib

/-!
# Maxio MAE0621A PHY driver (`drivers/net/phy/maxio.c`)

A shallow embedding of the register-level logic of the driver:

* the paged register port (`maxio_read_paged`, `maxio_write_paged`),
* the calibration engine (`maxio_adcc_check`, `maxio_self_check`),
* the auto-negotiation restart and the link debounce machine
  (`maxio_restart_aneg`, `phy_resolve_link_compatibility_maxio`),
* the two `config_init` hooks with their register profiles,
* the status hook (`maxio_mae0621a_status`, `phy_resolve_aneg_linkmode_maxio`)
  and the two probe hooks.

The MDIO bus (`phy_read`, `phy_write`) and the sleeping primitive belong to the
kernel, not to the driver, so they are a parameter: a `Transport` is an
arbitrary deterministic machine answering reads, writes and delays.  The
generic PHY library routines the status hook calls (`genphy_update_link`,
`genphy_read_lpa`) and the kernel version the driver is built for are a second
parameter, a `Kernel`; the outcome of `kzalloc` is an argument of the probes.
Every
driver routine is a state-passing function over a `phy_device`, which carries
the bus state, the fields of `struct phy_device` the driver touches, and a
trace of what was done (bus operations with their results, delays, kernel log
lines and the entry into each register-level routine).  The trace is write-only:
no routine ever inspects it.

C `int` values are `Int`; the bitwise operators are computed on the 32-bit
two's-complement representation; the `u16` value parameter of `phy_write`
is obtained by reduction modulo `2^16`.
-/

namespace Maxio

/-! ## Machine integers -/

/-- The 32-bit two's-complement bit pattern of a C `int`. -/
def toU32 (x : Int) : Nat := (x % 4294967296).toNat

/-- The C `int` with a given 32-bit pattern. -/
def ofU32 (n : Nat) : Int :=
  if n < 2147483648 then (n : Int) else (n : Int) - 4294967296

/-- C `a & b` on `int`. -/
def c_and (a b : Int) : Int := ofU32 (toU32 a &&& toU32 b)

/-- C `a | b` on `int`. -/
def c_or (a b : Int) : Int := ofU32 (toU32 a ||| toU32 b)

/-- C `~a` on `int`. -/
def c_not (a : Int) : Int := -a - 1

/-- Conversion of an `int` argument to the `u16` parameter of `phy_write`. -/
def toU16 (x : Int) : Nat := (x % 65536).toNat

/-! ## Constants of the driver (lines 17-31) -/

def MAXIO_PAGE_SELECT : Nat := 0x1f
def MAXIO_PHYSR_P_A43 : Nat := 0x1A
def MAXIO_PHY_LINK : Int := 4
def MAXIO_PHY_DUPLEX : Int := 8
def MAXIO_PHY_SPEED : Int := 48
def MAXIO_PHY_1000M : Int := 0x20
def MAXIO_PHY_100M : Int := 0x10
def MAXIO_PHY_10M : Int := 0x00
def AUTONEG_COMPLETED_INT_EN : Int := 0x8
def LINKOK : Int := 0x4
def AUTONEG_COMPLETED : Int := 0x8

/-- Modelled from the spec: the "basic control register" of section 4.3; its
index and bits come from `include/uapi/linux/mii.h`, which is not part of the
driver source.  Register index of the basic mode control register. -/
def MII_BMCR : Nat := 0x00

/-- Modelled from the spec: the "enable" bit of the basic control register
(`include/uapi/linux/mii.h`). -/
def BMCR_ANENABLE : Int := 0x1000

/-- Modelled from the spec: the "restart" bit of the basic control register
(`include/uapi/linux/mii.h`). -/
def BMCR_ANRESTART : Int := 0x0200

/-- Modelled from the spec: the "isolate" bit of the basic control register
(`include/uapi/linux/mii.h`). -/
def BMCR_ISOLATE : Int := 0x0400

/-- Modelled from the spec: speed "10M"; `SPEED_10` of
`include/uapi/linux/ethtool.h`, which is not part of the driver source. -/
def SPEED_10 : Int := 10

/-- Modelled from the spec: speed "100M" (`SPEED_100`, `ethtool.h`). -/
def SPEED_100 : Int := 100

/-- Modelled from the spec: speed "1000M" (`SPEED_1000`, `ethtool.h`). -/
def SPEED_1000 : Int := 1000

/-- Modelled from the spec: speed "unknown" (`SPEED_UNKNOWN`, `ethtool.h`). -/
def SPEED_UNKNOWN : Int := -1

/-- Modelled from the spec: duplex "half" (`DUPLEX_HALF`, `ethtool.h`). -/
def DUPLEX_HALF : Int := 0x00

/-- Modelled from the spec: duplex "full" (`DUPLEX_FULL`, `ethtool.h`). -/
def DUPLEX_FULL : Int := 0x01

/-- Modelled from the spec: duplex "unknown" (`DUPLEX_UNKNOWN`, `ethtool.h`). -/
def DUPLEX_UNKNOWN : Int := 0xff

/-- Modelled from the spec: "auto-negotiation is enabled" (`AUTONEG_ENABLE`,
`ethtool.h`). -/
def AUTONEG_ENABLE : Int := 0x01

/-- Modelled from the spec: the register holding "the negotiated link-partner
advertisement" (`MII_LPA`, `include/uapi/linux/mii.h`). -/
def MII_LPA : Nat := 0x05

/-- Modelled from the spec: the "pause" capability bit of the link-partner
advertisement (`LPA_PAUSE_CAP`, `mii.h`). -/
def LPA_PAUSE_CAP : Int := 0x0400

/-- Modelled from the spec: the "asym-pause" capability bit of the link-partner
advertisement (`LPA_PAUSE_ASYM`, `mii.h`). -/
def LPA_PAUSE_ASYM : Int := 0x0800

/-- Modelled from the spec: the error code of the "allocation failure"
(`ENOMEM`, `include/uapi/asm-generic/errno-base.h`). -/
def ENOMEM : Int := 12

/-! ## Transport, trace and device state -/

/-- The register transport the driver consumes: flat register reads and writes
returning a C `int` (negative: transport failure), and the passing of time. -/
structure Transport (σ : Type) where
  /-- The kernel routine `phy_read(phydev, regnum)`. -/
  phy_read : σ → Nat → Int × σ
  /-- The kernel routine `phy_write(phydev, regnum, val)` with `val` a `u16`. -/
  phy_write : σ → Nat → Nat → Int × σ
  /-- The kernel routine `msleep(ms)`. -/
  msleep : σ → Nat → σ

/-- The driver routines whose entry is recorded in the trace. -/
inductive Fn where
  | maxio_read_paged
  | maxio_write_paged
  | maxio_adcc_check
  | maxio_restart_aneg
  deriving DecidableEq, Repr

/-- What the driver did, in order. -/
inductive Event where
  /-- Bus read of `regnum` that returned `ret`. -/
  | read (regnum : Nat) (ret : Int)
  /-- Bus write of `val` to `regnum` that returned `ret`. -/
  | write (regnum : Nat) (val : Nat) (ret : Int)
  /-- Call of `msleep(ms)`. -/
  | msleep (ms : Nat)
  /-- Call of `mdelay(ms)`. -/
  | mdelay (ms : Nat)
  /-- Call of `printk`. -/
  | printk
  /-- Entry into a register-level routine with its integer arguments. -/
  | call (fn : Fn) (args : List Int)
  deriving DecidableEq, Repr

/-- Whether an event is a bus transaction. -/
def Event.isBus : Event → Bool
  | .read _ _ => true
  | .write _ _ _ => true
  | _ => false

/-- The part of `struct phy_device` the driver uses, together with the bus
state and the trace.  `priv` is the two-`int` array allocated by probe
(`paras[0]`, `paras[1]`), or `none` for a null pointer. -/
structure phy_device (σ : Type) where
  bus : σ
  trace : List Event
  link : Int
  speed : Int
  duplex : Int
  pause : Int
  asym_pause : Int
  autoneg : Int
  priv : Option (Int × Int)

/-- Append one event to the trace. -/
def phy_device.log {σ : Type} (phydev : phy_device σ) (e : Event) : phy_device σ :=
  { phydev with trace := phydev.trace ++ [e] }

/-- The generic PHY library and build configuration the driver is compiled
against.  These are kernel code, not driver code, so they are a parameter. -/
structure Kernel (σ : Type) where
  /-- Whether `LINUX_VERSION_CODE >= KERNEL_VERSION(5, 4, 0)` (line 169). -/
  version_ge_5_4 : Bool
  /-- The kernel routine `genphy_update_link(phydev)`. -/
  genphy_update_link : phy_device σ → Int × phy_device σ
  /-- The kernel routine `genphy_read_lpa(phydev)`. -/
  genphy_read_lpa : phy_device σ → Int × phy_device σ

section Driver

variable {σ : Type}

/-- Line 33: `PHY_READ(a,b)` is `phy_read((a),(b))`. -/
def PHY_READ (T : Transport σ) (phydev : phy_device σ) (regnum : Nat) :
    Int × phy_device σ :=
  let r := T.phy_read phydev.bus regnum
  (r.1, { phydev with bus := r.2, trace := phydev.trace ++ [Event.read regnum r.1] })

/-- Line 34: `PHY_WRITE(a,b,c)` is `phy_write((a),(b),(c))`; the `int`
argument is converted to the `u16` parameter. -/
def PHY_WRITE (T : Transport σ) (phydev : phy_device σ) (regnum : Nat) (val : Int) :
    Int × phy_device σ :=
  let r := T.phy_write phydev.bus regnum (toU16 val)
  (r.1, { phydev with bus := r.2,
                      trace := phydev.trace ++ [Event.write regnum (toU16 val) r.1] })

/-- The kernel routine `msleep(ms)`. -/
def msleep (T : Transport σ) (phydev : phy_device σ) (ms : Nat) : phy_device σ :=
  { phydev with bus := T.msleep phydev.bus ms,
                trace := phydev.trace ++ [Event.msleep ms] }

/-- The kernel routine `printk`: a line in the kernel log, no effect on the device. -/
def printk (phydev : phy_device σ) : phy_device σ :=
  phydev.log Event.printk

/-- Lines 36-48. -/
def maxio_read_paged (T : Transport σ) (phydev : phy_device σ) (page : Int)
    (regnum : Nat) : Int × phy_device σ :=
  let d0 := phydev.log (Event.call Fn.maxio_read_paged [page, (regnum : Int)])
  let oldpage := PHY_READ T d0 MAXIO_PAGE_SELECT
  let r :=
    if 0 ≤ oldpage.1 then
      PHY_READ T (PHY_WRITE T oldpage.2 MAXIO_PAGE_SELECT page).2 regnum
    else
      (0, oldpage.2)
  (r.1, (PHY_WRITE T r.2 MAXIO_PAGE_SELECT oldpage.1).2)

/-- Lines 50-63. -/
def maxio_write_paged (T : Transport σ) (phydev : phy_device σ) (page : Int)
    (regnum : Nat) (val : Int) : Int × phy_device σ :=
  let d0 := phydev.log (Event.call Fn.maxio_write_paged [page, (regnum : Int), val])
  let oldpage := PHY_READ T d0 MAXIO_PAGE_SELECT
  let r :=
    if 0 ≤ oldpage.1 then
      PHY_WRITE T (PHY_WRITE T oldpage.2 MAXIO_PAGE_SELECT page).2 regnum val
    else
      (0, oldpage.2)
  (r.1, (PHY_WRITE T r.2 MAXIO_PAGE_SELECT oldpage.1).2)

/-- Lines 76-78: the selector write and the result read of channel `i`. -/
def maxio_adcc_channel (T : Transport σ) (phydev : phy_device σ) (i : Int) :
    Int × phy_device σ :=
  let regval : Int := 0xf908 + i * 0x100
  maxio_read_paged T (maxio_write_paged T phydev 0xd8f 0xb regval).2 0xd92 0xb

/-- Lines 75-85: the channel loop with `n` iterations left, `i = 4 - n`. -/
def maxio_adcc_loop (T : Transport σ) :
    Nat → Int → Int → phy_device σ → Int × phy_device σ
  | 0, _, ret, phydev => (ret, phydev)
  | n + 1, i, ret, phydev =>
    let adcvalue := maxio_adcc_channel T phydev i
    if c_and adcvalue.1 0x1ff ≠ 0 then
      maxio_adcc_loop T n (i + 1) ret adcvalue.2
    else
      (-1, adcvalue.2)

/-- Lines 65-88. -/
def maxio_adcc_check (T : Transport σ) (phydev : phy_device σ) : Int × phy_device σ :=
  let d0 := phydev.log (Event.call Fn.maxio_adcc_check [])
  let d1 := (maxio_write_paged T d0 0xd96 0x2 0x1fff).2
  let d2 := (maxio_write_paged T d1 0xd96 0x2 0x1000).2
  maxio_adcc_loop T 4 0 0 d2

/-- Lines 101-105: the recovery sequence after a failed calibration attempt. -/
def maxio_self_check_recover (T : Transport σ) (phydev : phy_device σ) : phy_device σ :=
  let d1 := (maxio_write_paged T phydev 0x0 0x0 0x1940).2
  let d2 := (PHY_WRITE T d1 MAXIO_PAGE_SELECT 0x0).2
  let d3 := msleep T d2 10
  let d4 := (maxio_write_paged T d3 0x0 0x0 0x1140).2
  (maxio_write_paged T d4 0x0 0x0 0x9140).2

/-- Lines 95-107: the retry loop with `n` iterations left. -/
def maxio_self_check_loop (T : Transport σ) :
    Nat → Int → phy_device σ → Int × phy_device σ
  | 0, ret, phydev => (ret, phydev)
  | n + 1, _, phydev =>
    let ret := maxio_adcc_check T phydev
    if ret.1 = 0 then
      (ret.1, printk ret.2)
    else
      maxio_self_check_loop T n ret.1 (maxio_self_check_recover T ret.2)

/-- Lines 109-111: the writes issued after the retry loop. -/
def maxio_self_check_finish (T : Transport σ) (phydev : phy_device σ) : phy_device σ :=
  let d1 := (maxio_write_paged T phydev 0xd96 0x2 0xfff).2
  let d2 := (maxio_write_paged T d1 0x0 0x0 0x9140).2
  (PHY_WRITE T d2 MAXIO_PAGE_SELECT 0x0).2

/-- Lines 90-114.  The loop runs while `i < checknum` from `i = 0`, that is
`checknum` times when `checknum` is positive and not at all otherwise. -/
def maxio_self_check (T : Transport σ) (phydev : phy_device σ) (checknum : Int) :
    Int × phy_device σ :=
  let r := maxio_self_check_loop T checknum.toNat 0 phydev
  (r.1, maxio_self_check_finish T r.2)

/-- Lines 138-150. -/
def maxio_restart_aneg (T : Transport σ) (phydev : phy_device σ) : Int × phy_device σ :=
  let d0 := phydev.log (Event.call Fn.maxio_restart_aneg [])
  let ctl := PHY_READ T d0 MII_BMCR
  if ctl.1 < 0 then
    (ctl.1, ctl.2)
  else
    let ctl1 := c_or ctl.1 (c_or BMCR_ANENABLE BMCR_ANRESTART)
    let ctl2 := c_and ctl1 (c_not BMCR_ISOLATE)
    PHY_WRITE T ctl.2 MII_BMCR ctl2

/-- Lines 191-205: the debounce decision once the three status words are read.
Returns the new `(maxio_an_times, link_stable)` and the device. -/
def maxio_debounce (T : Transport σ) (phydev : phy_device σ) (insr : Int)
    (maxio_an_times link_stable : Int) : (Int × Int) × phy_device σ :=
  let r : (Int × Int) × phy_device σ :=
    if c_and insr AUTONEG_COMPLETED = 0 ∧ link_stable = 0 then
      if maxio_an_times < 4 then
        let d := (maxio_restart_aneg T phydev).2
        ((maxio_an_times + 1, link_stable), { d with link := 0 })
      else if maxio_an_times = 4 then
        ((maxio_an_times, 1), phydev)
      else
        ((maxio_an_times, link_stable), phydev)
    else if c_and insr AUTONEG_COMPLETED ≠ 0 then
      ((0, 1), phydev)
    else
      ((maxio_an_times, link_stable), phydev)
  if r.1.2 = 1 then ((0, r.1.2), r.2) else r

/-- Lines 180-212.  The routine dereferences `phydev->priv` first: with a null
pointer there is no result. -/
def phy_resolve_link_compatibility_maxio (T : Transport σ) (phydev : phy_device σ) :
    Option (phy_device σ) :=
  match phydev.priv with
  | none => none
  | some paras =>
    let maxio_an_times := paras.1
    let link_stable := paras.2
    let iner := maxio_read_paged T phydev 0xa42 0x12
    if c_and iner.1 AUTONEG_COMPLETED_INT_EN ≠ 0 then
      let physr := maxio_read_paged T iner.2 0xa43 0x1a
      if c_and physr.1 LINKOK ≠ 0 then
        let insr := maxio_read_paged T physr.2 0xa43 0x1d
        let r := maxio_debounce T insr.2 insr.1 maxio_an_times link_stable
        some { r.2 with priv := some r.1 }
      else
        some { physr.2 with priv := some (maxio_an_times, 0) }
    else
      some { iner.2 with priv := some (maxio_an_times, link_stable) }

/-- The statements `ret |= maxio_write_paged(phydev, page, reg, val);` of a
register profile, in order. -/
def maxio_write_profile (T : Transport σ) :
    List (Int × Nat × Int) → Int → phy_device σ → Int × phy_device σ
  | [], ret, phydev => (ret, phydev)
  | w :: ws, ret, phydev =>
    let r := maxio_write_paged T phydev w.1 w.2.1 w.2.2
    maxio_write_profile T ws (c_or ret r.1) r.2

/-- Lines 253-273: the `(page, register, value)` writes of the MAE0621A-Q2C. -/
def mae0621a_profile : List (Int × Nat × Int) :=
  [(0xda0, 0x10, 0xc13), (0x0, 0xd, 0x7), (0x0, 0xe, 0x3c), (0x0, 0xd, 0x4007),
   (0x0, 0xe, 0x0), (0xd96, 0x13, 0x7bc), (0xd8f, 0x8, 0x2500), (0xd90, 0x2, 0x1555),
   (0xd90, 0x5, 0x2b15), (0xd92, 0x14, 0xa), (0xd91, 0x7, 0x5b00), (0xd8f, 0x0, 0x300),
   (0xd92, 0xa, 0x8506), (0xd91, 0x6, 0x6870), (0xd91, 0x1, 0x940), (0xda0, 0x13, 0x1303),
   (0xd97, 0xc, 0x177), (0xd97, 0xb, 0x9a9), (0xa42, 0x12, 0x28), (0x0, 0x4, 0xde1),
   (0x0, 0x0, 0x9140)]

/-- Lines 319-345: the `(page, register, value)` writes of the MAE0621A/B-Q3C(I). -/
def mae0621aq3ci_profile : List (Int × Nat × Int) :=
  [(0xa43, 0x19, 0x823), (0xdab, 0x17, 0xC13), (0xd96, 0x15, 0xc08a), (0xda4, 0x12, 0x7bc),
   (0xd8f, 0x16, 0x2500), (0xd90, 0x16, 0x1555), (0xd92, 0x11, 0x2b15), (0xd96, 0x16, 0x4010),
   (0xda5, 0x11, 0x4a12), (0xda5, 0x12, 0x4a12), (0xd99, 0x16, 0xa), (0xd95, 0x13, 0x5b00),
   (0xd8f, 0x10, 0x300), (0xd98, 0x17, 0x8506), (0xd95, 0x12, 0x6870), (0xd93, 0x15, 0x940),
   (0xdad, 0x12, 0x303), (0xdad, 0x13, 0x50d), (0xdad, 0x14, 0xd05), (0xdad, 0x15, 0x505),
   (0xdad, 0x17, 0x1), (0xda8, 0x11, 0x177), (0xda8, 0x10, 0x9a9), (0xda8, 0x12, 0x868),
   (0xa42, 0x12, 0x28), (0x0, 0x4, 0xde1), (0x0, 0x0, 0x9140)]

/-- Lines 247-281.  The accumulated `ret` is computed and then dropped by
`return 0`. -/
def maxio_mae0621a_config_init (T : Transport σ) (phydev : phy_device σ) :
    Int × phy_device σ :=
  let d0 := printk phydev
  let r1 := maxio_write_profile T mae0621a_profile 0 d0
  let d2 := (PHY_WRITE T r1.2 MAXIO_PAGE_SELECT 0x0).2
  let r3 := maxio_self_check T d2 50
  let _ret := c_or r1.1 r3.1
  (0, msleep T r3.2 100)

/-- Lines 314-350.  The accumulated `ret` is computed and then dropped by
`return 0`. -/
def maxio_mae0621aq3ci_config_init (T : Transport σ) (phydev : phy_device σ) :
    Int × phy_device σ :=
  let d0 := printk phydev
  let r1 := maxio_write_profile T mae0621aq3ci_profile 0 d0
  let r2 := PHY_WRITE T r1.2 MAXIO_PAGE_SELECT 0
  let _ret := c_or r1.1 r2.1
  (0, r2.2)

/-- The kernel routine `mdelay(ms)`: a busy wait; the transport sees time pass. -/
def mdelay (T : Transport σ) (phydev : phy_device σ) (ms : Nat) : phy_device σ :=
  { phydev with bus := T.msleep phydev.bus ms,
                trace := phydev.trace ++ [Event.mdelay ms] }

/-- Lines 152-178. -/
def phy_resolve_aneg_linkmode_maxio (K : Kernel σ) (T : Transport σ)
    (phydev : phy_device σ) : phy_device σ :=
  let physr_p_a43 := maxio_read_paged T phydev 0xa43 MAXIO_PHYSR_P_A43
  let d1 : phy_device σ :=
    if c_and physr_p_a43.1 MAXIO_PHY_SPEED = MAXIO_PHY_1000M then
      { physr_p_a43.2 with speed := SPEED_1000 }
    else if c_and physr_p_a43.1 MAXIO_PHY_SPEED = MAXIO_PHY_100M then
      { physr_p_a43.2 with speed := SPEED_100 }
    else if c_and physr_p_a43.1 MAXIO_PHY_SPEED = MAXIO_PHY_10M then
      { physr_p_a43.2 with speed := SPEED_10 }
    else
      physr_p_a43.2
  let d2 : phy_device σ :=
    if c_and physr_p_a43.1 MAXIO_PHY_DUPLEX ≠ 0 then
      { d1 with duplex := DUPLEX_FULL }
    else
      { d1 with duplex := DUPLEX_HALF }
  if K.version_ge_5_4 then
    (K.genphy_read_lpa d2).2
  else if d2.duplex = DUPLEX_FULL then
    let lpa := PHY_READ T d2 MII_LPA
    { lpa.2 with pause := if c_and lpa.1 LPA_PAUSE_CAP ≠ 0 then 1 else 0,
                 asym_pause := if c_and lpa.1 LPA_PAUSE_ASYM ≠ 0 then 1 else 0 }
  else
    d2

/-- Lines 225-228: the resolved link parameters are forgotten. -/
def maxio_status_reset (phydev : phy_device σ) : phy_device σ :=
  { phydev with speed := SPEED_UNKNOWN, duplex := DUPLEX_UNKNOWN, pause := 0,
                asym_pause := 0 }

/-- Lines 214-236.  No result when `phy_resolve_link_compatibility_maxio` is
reached with a null `priv`. -/
def maxio_mae0621a_status (K : Kernel σ) (T : Transport σ) (phydev : phy_device σ) :
    Option (Int × phy_device σ) :=
  let old_link := phydev.link
  let err := K.genphy_update_link phydev
  if err.1 ≠ 0 then
    some (err.1, err.2)
  else if err.2.autoneg = AUTONEG_ENABLE ∧ old_link ≠ 0 ∧ err.2.link ≠ 0 then
    some (0, err.2)
  else
    let d1 := phy_resolve_aneg_linkmode_maxio K T (maxio_status_reset err.2)
    if d1.autoneg = AUTONEG_ENABLE then
      (phy_resolve_link_compatibility_maxio T d1).map (fun d2 => (0, d2))
    else
      some (0, d1)

/-- Lines 283-298.  `kzalloc_ok` tells whether `kzalloc` returned memory; the
memory it returns is zeroed. -/
def maxio_mae0621a_probe (T : Transport σ) (phydev : phy_device σ) (kzalloc_ok : Bool) :
    Int × phy_device σ :=
  let paras : Option (Int × Int) := if kzalloc_ok then some (0, 0) else none
  match paras with
  | none => (-ENOMEM, phydev)
  | some p =>
    let d1 : phy_device σ := { phydev with priv := some p }
    let d2 := printk d1
    let d3 := (PHY_WRITE T d2 MAXIO_PAGE_SELECT 0x0).2
    (0, mdelay T d3 100)

/-- Lines 300-312.  `kzalloc_ok` tells whether `kzalloc` returned memory; the
memory it returns is zeroed. -/
def maxio_mae0621aq3ci_probe (_T : Transport σ) (phydev : phy_device σ)
    (kzalloc_ok : Bool) : Int × phy_device σ :=
  let paras : Option (Int × Int) := if kzalloc_ok then some (0, 0) else none
  match paras with
  | none => (-ENOMEM, phydev)
  | some p =>
    let d1 : phy_device σ := { phydev with priv := some p }
    (0, printk d1)

end Driver

/-! ## Simulated transports -/

/-- A flat register file with fault injection.  Each bus operation consumes the
head of `faults`: a negative entry makes the operation fail with that error
code and leaves the registers alone, any other entry (or an empty schedule)
lets it succeed. -/
structure RegFile where
  regs : Nat → Nat
  faults : List Int

/-- The error code scheduled for the `k`-th next bus operation, `0` for none. -/
def RegFile.faultAt (b : RegFile) (k : Nat) : Int := b.faults.getD k 0

/-- Reads return the register content, successful writes store the value. -/
def RegFile.transport : Transport RegFile where
  phy_read b regnum :=
    if b.faultAt 0 < 0 then (b.faultAt 0, { b with faults := b.faults.tail })
    else ((b.regs regnum : Int), { b with faults := b.faults.tail })
  phy_write b regnum val :=
    if b.faultAt 0 < 0 then (b.faultAt 0, { b with faults := b.faults.tail })
    else (0, { regs := fun r => if r = regnum then val else b.regs r,
               faults := b.faults.tail })
  msleep b _ := b

/-- A device on transport state `b`, with an empty trace, link down, nothing
resolved and the given private data. -/
def phy_device.init {σ : Type} (b : σ) (priv : Option (Int × Int)) : phy_device σ :=
  { bus := b, trace := [], link := 0, speed := -1, duplex := 0xff, pause := 0,
    asym_pause := 0, autoneg := 1, priv := priv }

/-- A paged access as a request. -/
inductive PagedOp where
  | read (page : Int) (regnum : Nat)
  | write (page : Int) (regnum : Nat) (val : Int)

/-- Run paged accesses one after the other, dropping their results. -/
def runPaged {σ : Type} (T : Transport σ) : List PagedOp → phy_device σ → phy_device σ
  | [], phydev => phydev
  | PagedOp.read page regnum :: ops, phydev =>
    runPaged T ops (maxio_read_paged T phydev page regnum).2
  | PagedOp.write page regnum val :: ops, phydev =>
    runPaged T ops (maxio_write_paged T phydev page regnum val).2

/-! ## Simulated devices, trace observers and iteration -/

section Observers

variable {σ : Type}

/-- A register file whose registers all hold `0`, with a fault schedule. -/
def zeroRegs (faults : List Int) : RegFile := { regs := fun _ => 0, faults := faults }

/-- Events other than bus transactions and entries into the paged port. -/
def Event.isMark : Event → Bool
  | .msleep _ => true
  | .printk => true
  | .call Fn.maxio_adcc_check _ => true
  | .call Fn.maxio_restart_aneg _ => true
  | _ => false

/-- The trace of `d1` extends the trace of `d` by bus transactions and entries
into the paged port only. -/
def Quiet (d d1 : phy_device σ) : Prop :=
  ∃ l, d1.trace = d.trace ++ l ∧ ∀ x ∈ l, Event.isMark x = false

/-- One failed round of the retry loop: a calibration check followed by the
recovery sequence. -/
def maxio_self_check_retry (T : Transport σ) (d : phy_device σ) : phy_device σ :=
  maxio_self_check_recover T (maxio_adcc_check T d).2

/-- The trace entry of a calibration check. -/
def adccCall : Event := Event.call Fn.maxio_adcc_check []

/-- Number of calibration checks recorded in a trace. -/
def checksIn (tr : List Event) : Nat := tr.count adccCall

/-- Number of recovery sequences recorded in a trace: `msleep(10)` is issued
once per recovery sequence and nowhere else in the calibration engine. -/
def recoveriesIn (tr : List Event) : Nat := tr.count (Event.msleep 10)

/-- A simulated PHY whose calibration channel 3 never converges.  The state is
the last value written to register `0xb` (the channel selector); reading
register `0xb` yields `0x200` (low nine bits clear) when channel 3 is selected
and `0x1` otherwise; every other register reads `0`; writes always succeed. -/
def chan3Bus : Transport Nat where
  phy_read s regnum := (if regnum = 0xb then (if s = 0xfc08 then 0x200 else 0x1) else 0, s)
  phy_write s regnum val := (0, if regnum = 0xb then val else s)
  msleep s _ := s

/-- A simulated PHY whose calibration converges after two delays.  The state
counts the `msleep` calls; register `0xb` reads `1` once two delays have passed
and `0` before; every other register reads `0`; writes always succeed. -/
def settleBus : Transport Nat where
  phy_read s regnum := (if regnum = 0xb ∧ 2 ≤ s then 1 else 0, s)
  phy_write s _ _ := (0, s)
  msleep s _ := s + 1

/-- A plain register memory without faults: reads return the content, writes
store the value. -/
def plainRegs : Transport (Nat → Nat) where
  phy_read b regnum := ((b regnum : Int), b)
  phy_write b regnum val := (0, fun r => if r = regnum then val else b r)
  msleep b _ := b

/-- The trace entry of a forced renegotiation restart. -/
def restartCall : Event := Event.call Fn.maxio_restart_aneg []

/-- Number of forced restarts recorded in a trace. -/
def restartsIn (tr : List Event) : Nat := tr.count restartCall

/-- The three status words an invocation of the resolver would read on device
`d`: interrupt enable (page `0xa42`, register `0x12`), link status (page
`0xa43`, register `0x1a`) and interrupt status (page `0xa43`, register `0x1d`),
read one after the other. -/
def statusWords (T : Transport σ) (d : phy_device σ) : Int × Int × Int :=
  let iner := maxio_read_paged T d 0xa42 0x12
  let physr := maxio_read_paged T iner.2 0xa43 0x1a
  let insr := maxio_read_paged T physr.2 0xa43 0x1d
  (iner.1, physr.1, insr.1)

/-- An invocation on `d` sees the autoneg-complete interrupt enabled, the link
OK and auto-negotiation not completed. -/
def AnegPending (T : Transport σ) (d : phy_device σ) : Prop :=
  c_and (statusWords T d).1 AUTONEG_COMPLETED_INT_EN ≠ 0
    ∧ c_and (statusWords T d).2.1 LINKOK ≠ 0
    ∧ c_and (statusWords T d).2.2 AUTONEG_COMPLETED = 0

/-- An invocation on `d` sees the autoneg-complete interrupt enabled, the link
OK and auto-negotiation completed. -/
def AnegDone (T : Transport σ) (d : phy_device σ) : Prop :=
  c_and (statusWords T d).1 AUTONEG_COMPLETED_INT_EN ≠ 0
    ∧ c_and (statusWords T d).2.1 LINKOK ≠ 0
    ∧ c_and (statusWords T d).2.2 AUTONEG_COMPLETED ≠ 0

/-- The device after `n` consecutive invocations of the resolver. -/
def polls (T : Transport σ) : Nat → phy_device σ → Option (phy_device σ)
  | 0, d => some d
  | n + 1, d => (polls T n d).bind (phy_resolve_link_compatibility_maxio T)

/-- A stateless simulated PHY for the resolver: interrupt enable reads `0x28`,
link status reads `0x2c` (link OK, full duplex, 1000M), interrupt status reads
`insr`, every other register reads `0`; writes succeed and are forgotten. -/
def statusBus (insr : Int) : Transport Unit where
  phy_read s regnum :=
    (if regnum = 0x12 then 0x28 else if regnum = 0x1a then 0x2c
      else if regnum = 0x1d then insr else 0, s)
  phy_write s _ _ := (0, s)
  msleep s _ := s

/-- The device after the three status reads of one invocation. -/
def afterStatusReads (T : Transport σ) (d : phy_device σ) : phy_device σ :=
  (maxio_read_paged T (maxio_read_paged T (maxio_read_paged T d 0xa42 0x12).2
    0xa43 0x1a).2 0xa43 0x1d).2

/-- The trace entry of the selector write of calibration channel `i`. -/
def selectorCall (i : Int) : Event :=
  Event.call Fn.maxio_write_paged [0xd8f, 0xb, 0xf908 + i * 0x100]

/-- The trace entry of a result read of the calibration engine. -/
def resultCall : Event := Event.call Fn.maxio_read_paged [0xd92, 0xb]

/-- The device when `maxio_adcc_check` enters its channel loop (after line 73). -/
def adccStart (T : Transport σ) (d : phy_device σ) : phy_device σ :=
  (maxio_write_paged T (maxio_write_paged T (d.log adccCall) 0xd96 0x2 0x1fff).2
    0xd96 0x2 0x1000).2

/-- The device after the channel loop has gone through channels `0 .. i-1`
without stopping. -/
def adccChanState (T : Transport σ) (d : phy_device σ) : Nat → phy_device σ
  | 0 => adccStart T d
  | i + 1 => (maxio_adcc_channel T (adccChanState T d i) (i : Int)).2

/-- The value read for channel `i` from (page `0xd92`, register `0xb`) after the
selector write of channel `i`, channels `0 .. i-1` having been gone through. -/
def adccChanValue (T : Transport σ) (d : phy_device σ) (i : Nat) : Int :=
  (maxio_adcc_channel T (adccChanState T d i) (i : Int)).1

/-- Channel `i` passes: its result has one of the low nine bits set. -/
@[reducible]
def adccPass (T : Transport σ) (d : phy_device σ) (i : Nat) : Prop :=
  c_and (adccChanValue T d i) 0x1ff ≠ 0

/-- Number of paged reads recorded in a trace. -/
def pagedReadsIn (tr : List Event) : Nat :=
  tr.countP (fun e => match e with
    | Event.call Fn.maxio_read_paged _ => true
    | _ => false)

/-- The speed decode table as section 8 of the specification words it: masked
pattern `0x20` gives 1000M, `0x10` gives 100M, `0x00` gives 10M, any other
masked value leaves the speed unknown. -/
def speed_decode_table (masked : Int) : Int :=
  if masked = 0x20 then SPEED_1000
  else if masked = 0x10 then SPEED_100
  else if masked = 0x00 then SPEED_10
  else SPEED_UNKNOWN

/-- A simulated generic PHY library: the link update always succeeds and
reports `link`, the link-partner read does nothing. -/
def simKernel (modern : Bool) (link : Int) : Kernel σ where
  version_ge_5_4 := modern
  genphy_update_link d := (0, { d with link := link })
  genphy_read_lpa d := (0, d)

/-- Whether an event is a bus transaction on register `r`. -/
def Event.touches (r : Nat) : Event → Bool
  | .read regnum _ => regnum == r
  | .write regnum _ _ => regnum == r
  | _ => false

/-- Number of bus transactions on register `r` recorded in a trace. -/
def accessesIn (r : Nat) (tr : List Event) : Nat := tr.countP (Event.touches r)

/-- An invocation on `d` sees the autoneg-complete interrupt enabled and the
link not OK. -/
def LinkLost (T : Transport σ) (d : phy_device σ) : Prop :=
  c_and (statusWords T d).1 AUTONEG_COMPLETED_INT_EN ≠ 0
    ∧ c_and (statusWords T d).2.1 LINKOK = 0

/-- An invocation on `d` sees the autoneg-complete interrupt disabled, or the
link OK. -/
def LinkHeld (T : Transport σ) (d : phy_device σ) : Prop :=
  c_and (statusWords T d).1 AUTONEG_COMPLETED_INT_EN = 0
    ∨ c_and (statusWords T d).2.1 LINKOK ≠ 0

/-- The bounds on the debounce state `(consecutive_incomplete_count, is_stable)`. -/
def DebounceInv (p : Int × Int) : Prop :=
  0 ≤ p.1 ∧ p.1 ≤ 4 ∧ (p.2 = 0 ∨ p.2 = 1) ∧ (p.2 = 1 → p.1 = 0)

/-- The debounce states reachable from a successful probe (of either variant, on
any device) by invocations of the resolver, the device and its transport state
being arbitrary at each invocation. -/
inductive Reachable (T : Transport σ) : Int × Int → Prop where
  | probe_q2c (d : phy_device σ) (p : Int × Int) :
      (maxio_mae0621a_probe T d true).2.priv = some p → Reachable T p
  | probe_q3c (d : phy_device σ) (p : Int × Int) :
      (maxio_mae0621aq3ci_probe T d true).2.priv = some p → Reachable T p
  | poll (d d1 : phy_device σ) (p p1 : Int × Int) :
      Reachable T p → d.priv = some p →
      phy_resolve_link_compatibility_maxio T d = some d1 → d1.priv = some p1 →
      Reachable T p1

/-- A simulated PHY whose result register cannot be read: reading register
`0xb` fails with `-5`, every other register reads `0`; writes succeed. -/
def errBus : Transport Unit where
  phy_read s regnum := (if regnum = 0xb then -5 else 0, s)
  phy_write s _ _ := (0, s)
  msleep s _ := s

/-- The events of one paged write of `val` to (`page`, `regnum`): its entry, the
page-select read, then either the page-select write, the register write and the
restore write (page-select read not negative), or the restore write alone. -/
def IsPagedWrite (page : Int) (regnum : Nat) (val : Int) (l : List Event) : Prop :=
  ∃ p0 r,
    (0 ≤ p0 ∧ ∃ s w, l =
      [Event.call Fn.maxio_write_paged [page, (regnum : Int), val],
        Event.read MAXIO_PAGE_SELECT p0,
        Event.write MAXIO_PAGE_SELECT (toU16 page) s,
        Event.write regnum (toU16 val) w,
        Event.write MAXIO_PAGE_SELECT (toU16 p0) r])
    ∨ (p0 < 0 ∧ l =
      [Event.call Fn.maxio_write_paged [page, (regnum : Int), val],
        Event.read MAXIO_PAGE_SELECT p0,
        Event.write MAXIO_PAGE_SELECT (toU16 p0) r])

/-- The events of one recovery sequence: the paged write of `0x1940` to
(page `0`, register `0`), the direct write of `0` to the page-select register,
`msleep(10)`, then the paged writes of `0x1140` and of `0x9140` to
(page `0`, register `0`). -/
def IsRecovery (l : List Event) : Prop :=
  ∃ w1 r w2 w3,
    l = w1 ++ [Event.write MAXIO_PAGE_SELECT 0 r, Event.msleep 10] ++ w2 ++ w3
    ∧ IsPagedWrite 0x0 0x0 0x1940 w1
    ∧ IsPagedWrite 0x0 0x0 0x1140 w2
    ∧ IsPagedWrite 0x0 0x0 0x9140 w3

/-- The events of one calibration check: its entry, then bus transactions and
entries into the paged port only. -/
def IsCheck (l : List Event) : Prop :=
  ∃ ops, l = adccCall :: ops ∧ ∀ x ∈ ops, Event.isMark x = false

/-- The events of the finish sequence: the paged write of `0xfff` to
(page `0xd96`, register `0x2`), the paged write of `0x9140` to
(page `0`, register `0`) and the direct write of `0` to the page-select
register. -/
def IsFinish (l : List Event) : Prop :=
  ∃ w1 w2 r,
    l = w1 ++ w2 ++ [Event.write MAXIO_PAGE_SELECT 0 r]
    ∧ IsPagedWrite 0xd96 0x2 0xfff w1
    ∧ IsPagedWrite 0x0 0x0 0x9140 w2

/-- The events of `n` failed rounds: `n` times a calibration check followed by
a recovery sequence. -/
def FailedRounds : Nat → List Event → Prop
  | 0, l => l = []
  | n + 1, l => ∃ c r rest, l = c ++ r ++ rest ∧ IsCheck c ∧ IsRecovery r
      ∧ FailedRounds n rest

end Observers

/-! ## The paged register port -/

section PagedPort

theorem RegFile.faultAt_tail (b : RegFile) (k : Nat) :
    ({ b with faults := b.faults.tail } : RegFile).faultAt k = b.faultAt (k + 1) := by
  cases h : b.faults <;> simp [RegFile.faultAt, h]

theorem toU16_natCast (n : Nat) (h : n < 65536) : toU16 (n : Int) = n := by
  unfold toU16
  omega

theorem RegFile.read_faultAt (b : RegFile) (regnum k : Nat) :
    (RegFile.transport.phy_read b regnum).2.faultAt k = b.faultAt (k + 1) := by
  unfold RegFile.transport
  by_cases h : b.faultAt 0 < 0 <;> simp [h, RegFile.faultAt_tail]

theorem RegFile.write_faultAt (b : RegFile) (regnum val k : Nat) :
    (RegFile.transport.phy_write b regnum val).2.faultAt k = b.faultAt (k + 1) := by
  unfold RegFile.transport
  by_cases h : b.faultAt 0 < 0
  · simp [h, RegFile.faultAt_tail]
  · simp only [h, if_false]
    exact RegFile.faultAt_tail b k

theorem RegFile.read_ok (b : RegFile) (regnum : Nat) (h : 0 ≤ b.faultAt 0) :
    (RegFile.transport.phy_read b regnum).1 = (b.regs regnum : Int) := by
  unfold RegFile.transport
  simp [not_lt.mpr h]

theorem RegFile.write_ok (b : RegFile) (regnum val : Nat) (h : 0 ≤ b.faultAt 0) :
    (RegFile.transport.phy_write b regnum val).2.regs regnum = val := by
  unfold RegFile.transport
  simp [not_lt.mpr h]

/-- The bus after a paged read whose initial page-select read succeeded. -/
theorem maxio_read_paged_bus {σ : Type} (T : Transport σ) (d : phy_device σ) (page : Int)
    (regnum : Nat) (h : 0 ≤ (T.phy_read d.bus MAXIO_PAGE_SELECT).1) :
    (maxio_read_paged T d page regnum).2.bus =
      (T.phy_write
        (T.phy_read
          (T.phy_write (T.phy_read d.bus MAXIO_PAGE_SELECT).2 MAXIO_PAGE_SELECT
            (toU16 page)).2 regnum).2
        MAXIO_PAGE_SELECT (toU16 (T.phy_read d.bus MAXIO_PAGE_SELECT).1)).2 := by
  simp [maxio_read_paged, PHY_READ, PHY_WRITE, phy_device.log, h]

/-- The bus after a paged write whose initial page-select read succeeded. -/
theorem maxio_write_paged_bus {σ : Type} (T : Transport σ) (d : phy_device σ) (page : Int)
    (regnum : Nat) (val : Int) (h : 0 ≤ (T.phy_read d.bus MAXIO_PAGE_SELECT).1) :
    (maxio_write_paged T d page regnum val).2.bus =
      (T.phy_write
        (T.phy_write
          (T.phy_write (T.phy_read d.bus MAXIO_PAGE_SELECT).2 MAXIO_PAGE_SELECT
            (toU16 page)).2 regnum (toU16 val)).2
        MAXIO_PAGE_SELECT (toU16 (T.phy_read d.bus MAXIO_PAGE_SELECT).1)).2 := by
  simp [maxio_write_paged, PHY_READ, PHY_WRITE, phy_device.log, h]

theorem regfile_read_paged (d : phy_device RegFile) (page : Int) (regnum : Nat)
    (hreg : d.bus.regs MAXIO_PAGE_SELECT < 65536)
    (h0 : 0 ≤ d.bus.faultAt 0) (h3 : 0 ≤ d.bus.faultAt 3) :
    (maxio_read_paged RegFile.transport d page regnum).2.bus.regs MAXIO_PAGE_SELECT
        = d.bus.regs MAXIO_PAGE_SELECT
      ∧ ∀ k, (maxio_read_paged RegFile.transport d page regnum).2.bus.faultAt k
        = d.bus.faultAt (k + 4) := by
  have hr := RegFile.read_ok d.bus MAXIO_PAGE_SELECT h0
  have hr0 : 0 ≤ (RegFile.transport.phy_read d.bus MAXIO_PAGE_SELECT).1 := by
    rw [hr]; exact Int.natCast_nonneg _
  rw [maxio_read_paged_bus _ _ _ _ hr0, hr, toU16_natCast _ hreg]
  constructor
  · apply RegFile.write_ok
    simpa [RegFile.read_faultAt, RegFile.write_faultAt] using h3
  · intro k
    simp [RegFile.read_faultAt, RegFile.write_faultAt]

theorem regfile_write_paged (d : phy_device RegFile) (page : Int) (regnum : Nat) (val : Int)
    (hreg : d.bus.regs MAXIO_PAGE_SELECT < 65536)
    (h0 : 0 ≤ d.bus.faultAt 0) (h3 : 0 ≤ d.bus.faultAt 3) :
    (maxio_write_paged RegFile.transport d page regnum val).2.bus.regs MAXIO_PAGE_SELECT
        = d.bus.regs MAXIO_PAGE_SELECT
      ∧ ∀ k, (maxio_write_paged RegFile.transport d page regnum val).2.bus.faultAt k
        = d.bus.faultAt (k + 4) := by
  have hr := RegFile.read_ok d.bus MAXIO_PAGE_SELECT h0
  have hr0 : 0 ≤ (RegFile.transport.phy_read d.bus MAXIO_PAGE_SELECT).1 := by
    rw [hr]; exact Int.natCast_nonneg _
  rw [maxio_write_paged_bus _ _ _ _ _ hr0, hr, toU16_natCast _ hreg]
  constructor
  · apply RegFile.write_ok
    simpa [RegFile.read_faultAt, RegFile.write_faultAt] using h3
  · intro k
    simp [RegFile.read_faultAt, RegFile.write_faultAt]

theorem regfile_runPaged (ops : List PagedOp) :
    ∀ d : phy_device RegFile, d.bus.regs MAXIO_PAGE_SELECT < 65536 →
      (∀ j, j < ops.length → 0 ≤ d.bus.faultAt (4 * j) ∧ 0 ≤ d.bus.faultAt (4 * j + 3)) →
      (runPaged RegFile.transport ops d).bus.regs MAXIO_PAGE_SELECT
        = d.bus.regs MAXIO_PAGE_SELECT := by
  induction ops with
  | nil => intro d _ _; rfl
  | cons op ops ih =>
    intro d hreg hf
    have h0 := hf 0 (by simp)
    simp only [Nat.mul_zero, Nat.zero_add] at h0
    have shift : ∀ d1 : phy_device RegFile,
        d1.bus.regs MAXIO_PAGE_SELECT = d.bus.regs MAXIO_PAGE_SELECT →
        (∀ k, d1.bus.faultAt k = d.bus.faultAt (k + 4)) →
        (runPaged RegFile.transport ops d1).bus.regs MAXIO_PAGE_SELECT
          = d.bus.regs MAXIO_PAGE_SELECT := by
      intro d1 hregs hfl
      rw [ih d1 (by rw [hregs]; exact hreg), hregs]
      intro j hj
      have := hf (j + 1) (by simpa using hj)
      rw [hfl, hfl]
      have e1 : 4 * j + 4 = 4 * (j + 1) := by ring
      have e2 : 4 * j + 3 + 4 = 4 * (j + 1) + 3 := by ring
      rw [e1, e2]
      exact this
    cases op with
    | read page regnum =>
      have h := regfile_read_paged d page regnum hreg h0.1 h0.2
      exact shift _ h.1 h.2
    | write page regnum val =>
      have h := regfile_write_paged d page regnum val hreg h0.1 h0.2
      exact shift _ h.1 h.2

/-- C1 (amended): on the register-file transport, whenever the initial read of
the page-select register and the final restore write both complete, the
page-select register holds after `maxio_read_paged` / `maxio_write_paged`
exactly what it held before, whatever happens to the page-select write and to
the inner access (both may fail); and the same after any sequence of paged
accesses each of whose initial read and restore write complete. -/
theorem paged_access_restores_page_select (d : phy_device RegFile)
    (hreg : d.bus.regs MAXIO_PAGE_SELECT < 65536) :
    (∀ (page : Int) (regnum : Nat), 0 ≤ d.bus.faultAt 0 → 0 ≤ d.bus.faultAt 3 →
        (maxio_read_paged RegFile.transport d page regnum).2.bus.regs MAXIO_PAGE_SELECT
          = d.bus.regs MAXIO_PAGE_SELECT)
    ∧ (∀ (page : Int) (regnum : Nat) (val : Int),
        0 ≤ d.bus.faultAt 0 → 0 ≤ d.bus.faultAt 3 →
        (maxio_write_paged RegFile.transport d page regnum val).2.bus.regs MAXIO_PAGE_SELECT
          = d.bus.regs MAXIO_PAGE_SELECT)
    ∧ (∀ ops : List PagedOp,
        (∀ j, j < ops.length → 0 ≤ d.bus.faultAt (4 * j) ∧ 0 ≤ d.bus.faultAt (4 * j + 3)) →
        (runPaged RegFile.transport ops d).bus.regs MAXIO_PAGE_SELECT
          = d.bus.regs MAXIO_PAGE_SELECT) :=
  ⟨fun page regnum h0 h3 => (regfile_read_paged d page regnum hreg h0 h3).1,
   fun page regnum val h0 h3 => (regfile_write_paged d page regnum val hreg h0 h3).1,
   fun ops hf => regfile_runPaged ops d hreg hf⟩

/-- Witness for C1 (amended): page-select holds `5`, the page-select write and
the inner read both fail, and the register still holds `5` afterwards. -/
theorem paged_access_restores_page_select_witness :
    (maxio_read_paged RegFile.transport
        (phy_device.init ({ regs := fun _ => 5, faults := [0, -5, -5, 0] } : RegFile) none)
        0xa43 0x1a).1 = -5
    ∧ (maxio_read_paged RegFile.transport
        (phy_device.init ({ regs := fun _ => 5, faults := [0, -5, -5, 0] } : RegFile) none)
        0xa43 0x1a).2.bus.regs MAXIO_PAGE_SELECT = 5 :=
  ⟨by decide,
   (paged_access_restores_page_select
      (phy_device.init ({ regs := fun _ => 5, faults := [0, -5, -5, 0] } : RegFile) none)
      (by decide)).1 0xa43 0x1a (by decide) (by decide)⟩

/-- C1 (counterexample): the page-select register holds `0`; in the first run
every bus operation succeeds except the final restore write, and the register
is left at the requested page `0xa43` (read and write alike); in the second
run the initial page-select read fails with `-5` and the register is left at
`0xfffb`, the error code as a `u16`. -/
theorem paged_access_page_select_not_restored :
    (phy_device.init (zeroRegs [0, 0, 0, -5]) none).bus.regs MAXIO_PAGE_SELECT = 0
    ∧ (maxio_read_paged RegFile.transport
        (phy_device.init (zeroRegs [0, 0, 0, -5]) none) 0xa43 0x1a).2.bus.regs
          MAXIO_PAGE_SELECT = 0xa43
    ∧ (maxio_write_paged RegFile.transport
        (phy_device.init (zeroRegs [0, 0, 0, -5]) none) 0xa43 0x1a 7).2.bus.regs
          MAXIO_PAGE_SELECT = 0xa43
    ∧ (maxio_read_paged RegFile.transport
        (phy_device.init (zeroRegs [-5]) none) 0xa43 0x1a).2.bus.regs
          MAXIO_PAGE_SELECT = 0xfffb := by
  decide

/-- On any transport, a failed initial page-select read makes both paged
routines return `0`. -/
theorem paged_access_zero_of_page_read_error {σ : Type} (T : Transport σ)
    (d : phy_device σ) (page : Int) (regnum : Nat) (val : Int)
    (h : (T.phy_read d.bus MAXIO_PAGE_SELECT).1 < 0) :
    (maxio_read_paged T d page regnum).1 = 0
      ∧ (maxio_write_paged T d page regnum val).1 = 0 := by
  have h1 : ¬ 0 ≤ (T.phy_read d.bus MAXIO_PAGE_SELECT).1 := not_le.mpr h
  simp [maxio_read_paged, maxio_write_paged, PHY_READ, phy_device.log, h1]

/-- C2 (evaluation at the failing input): the initial read of the page-select
register fails with `-5`, and both `maxio_read_paged` and `maxio_write_paged`
return `0`, not an error. -/
theorem paged_access_page_read_error_returns_zero :
    (PHY_READ RegFile.transport (phy_device.init (zeroRegs [-5]) none)
        MAXIO_PAGE_SELECT).1 = -5
    ∧ (maxio_read_paged RegFile.transport
        (phy_device.init (zeroRegs [-5]) none) 0xa43 0x1a).1 = 0
    ∧ (maxio_write_paged RegFile.transport
        (phy_device.init (zeroRegs [-5]) none) 0xa43 0x1a 7).1 = 0 := by
  decide

/-- C3 (counterexample): the inner write succeeds (status `0`), the restore
write fails (status `-5`), and `maxio_write_paged` returns `0`, which is not
the bitwise OR of the two statuses. -/
theorem write_paged_status_ignores_restore :
    (maxio_write_paged RegFile.transport
        (phy_device.init (zeroRegs [0, 0, 0, -5]) none) 0xa43 0x1a 7).2.trace
      = [Event.call Fn.maxio_write_paged [0xa43, 0x1a, 7],
         Event.read 0x1f 0, Event.write 0x1f 0xa43 0,
         Event.write 0x1a 7 0, Event.write 0x1f 0 (-5)]
    ∧ (maxio_write_paged RegFile.transport
        (phy_device.init (zeroRegs [0, 0, 0, -5]) none) 0xa43 0x1a 7).1 = 0
    ∧ c_or 0 (-5) ≠ 0 := by
  decide

/-- C3 (amended): when the initial page-select read succeeds,
`maxio_write_paged` returns exactly the status of the inner register write;
the status of the restore write, which is the last bus operation, is dropped.
So a failing inner write makes the result a failure, and a successful inner
write makes it `0` whether or not the restore write fails. -/
theorem write_paged_returns_inner_status {σ : Type} (T : Transport σ) (d : phy_device σ)
    (page : Int) (regnum : Nat) (val : Int)
    (h : 0 ≤ (T.phy_read d.bus MAXIO_PAGE_SELECT).1) :
    let oldpage := T.phy_read d.bus MAXIO_PAGE_SELECT
    let sel := T.phy_write oldpage.2 MAXIO_PAGE_SELECT (toU16 page)
    let inner := T.phy_write sel.2 regnum (toU16 val)
    let restore := T.phy_write inner.2 MAXIO_PAGE_SELECT (toU16 oldpage.1)
    (maxio_write_paged T d page regnum val).1 = inner.1
    ∧ (maxio_write_paged T d page regnum val).2.trace
        = d.trace ++ [Event.call Fn.maxio_write_paged [page, (regnum : Int), val],
            Event.read MAXIO_PAGE_SELECT oldpage.1,
            Event.write MAXIO_PAGE_SELECT (toU16 page) sel.1,
            Event.write regnum (toU16 val) inner.1,
            Event.write MAXIO_PAGE_SELECT (toU16 oldpage.1) restore.1]
    ∧ (inner.1 < 0 → (maxio_write_paged T d page regnum val).1 < 0)
    ∧ (inner.1 = 0 → (maxio_write_paged T d page regnum val).1 = 0) := by
  simp [maxio_write_paged, PHY_READ, PHY_WRITE, phy_device.log, h]

/-- Witness for C3 (amended): the inner write fails with `-5`, the restore
write succeeds, and the result is `-5`. -/
theorem write_paged_returns_inner_status_witness :
    (maxio_write_paged RegFile.transport
        (phy_device.init (zeroRegs [0, 0, -5, 0]) none) 0xa43 0x1a 7).1 = -5 :=
  (write_paged_returns_inner_status RegFile.transport
      (phy_device.init (zeroRegs [0, 0, -5, 0]) none) 0xa43 0x1a 7 (by decide)).1.trans
    (by decide)

/-- C14: when the initial page-select read succeeds with `p0 ≥ 0`,
`maxio_read_paged` issues exactly four bus operations, in order read `0x1f`,
write `0x1f := page`, read `regnum`, write `0x1f := p0`, and returns the result
of the third; `maxio_write_paged` issues read `0x1f`, write `0x1f := page`,
write `regnum := val`, write `0x1f := p0`, and returns the status of the third.
Written values are the `u16` conversions, which for a 16-bit `p0` is `p0`. -/
theorem paged_access_issues_four_operations {σ : Type} (T : Transport σ) (d : phy_device σ)
    (page : Int) (regnum : Nat) (val : Int)
    (h : 0 ≤ (T.phy_read d.bus MAXIO_PAGE_SELECT).1) :
    let p0 := T.phy_read d.bus MAXIO_PAGE_SELECT
    let sel := T.phy_write p0.2 MAXIO_PAGE_SELECT (toU16 page)
    let rd := T.phy_read sel.2 regnum
    let wr := T.phy_write sel.2 regnum (toU16 val)
    (maxio_read_paged T d page regnum).2.trace
        = d.trace ++ [Event.call Fn.maxio_read_paged [page, (regnum : Int)],
            Event.read MAXIO_PAGE_SELECT p0.1,
            Event.write MAXIO_PAGE_SELECT (toU16 page) sel.1,
            Event.read regnum rd.1,
            Event.write MAXIO_PAGE_SELECT (toU16 p0.1)
              (T.phy_write rd.2 MAXIO_PAGE_SELECT (toU16 p0.1)).1]
    ∧ (maxio_read_paged T d page regnum).1 = rd.1
    ∧ (maxio_write_paged T d page regnum val).2.trace
        = d.trace ++ [Event.call Fn.maxio_write_paged [page, (regnum : Int), val],
            Event.read MAXIO_PAGE_SELECT p0.1,
            Event.write MAXIO_PAGE_SELECT (toU16 page) sel.1,
            Event.write regnum (toU16 val) wr.1,
            Event.write MAXIO_PAGE_SELECT (toU16 p0.1)
              (T.phy_write wr.2 MAXIO_PAGE_SELECT (toU16 p0.1)).1]
    ∧ (maxio_write_paged T d page regnum val).1 = wr.1
    ∧ (p0.1 < 65536 → ((toU16 p0.1 : Nat) : Int) = p0.1) := by
  refine ⟨?_, ?_, ?_, ?_, ?_⟩
  · simp [maxio_read_paged, PHY_READ, PHY_WRITE, phy_device.log, h]
  · simp [maxio_read_paged, PHY_READ, PHY_WRITE, phy_device.log, h]
  · simp [maxio_write_paged, PHY_READ, PHY_WRITE, phy_device.log, h]
  · simp [maxio_write_paged, PHY_READ, PHY_WRITE, phy_device.log, h]
  · intro hlt
    unfold toU16
    omega

/-- Witness for C14: on a plain register memory whose page-select register
holds `5` and whose register `0x1a` holds `0x2c`, the paged read of
(page `0xa43`, register `0x1a`) issues the four operations and returns `0x2c`. -/
theorem paged_access_issues_four_operations_witness :
    (maxio_read_paged plainRegs
        (phy_device.init (fun r => if r = 0x1f then 5 else 0x2c) none) 0xa43 0x1a).2.trace
      = [Event.call Fn.maxio_read_paged [0xa43, 0x1a],
          Event.read 0x1f 5, Event.write 0x1f 0xa43 0, Event.read 0x1a 0x2c,
          Event.write 0x1f 5 0]
    ∧ (maxio_read_paged plainRegs
        (phy_device.init (fun r => if r = 0x1f then 5 else 0x2c) none) 0xa43 0x1a).1
      = 0x2c :=
  ⟨(paged_access_issues_four_operations plainRegs
      (phy_device.init (fun r => if r = 0x1f then 5 else 0x2c) none) 0xa43 0x1a 0
      (by decide)).1.trans (by decide),
   (paged_access_issues_four_operations plainRegs
      (phy_device.init (fun r => if r = 0x1f then 5 else 0x2c) none) 0xa43 0x1a 0
      (by decide)).2.1.trans (by decide)⟩

end PagedPort

/-! ## Trace bookkeeping -/

section TraceLemmas

variable {σ : Type}

theorem Quiet.refl (d : phy_device σ) : Quiet d d :=
  ⟨[], by simp, by simp⟩

theorem Quiet.trans {d d1 d2 : phy_device σ} (h1 : Quiet d d1) (h2 : Quiet d1 d2) :
    Quiet d d2 := by
  obtain ⟨l1, e1, p1⟩ := h1
  obtain ⟨l2, e2, p2⟩ := h2
  refine ⟨l1 ++ l2, by rw [e2, e1, List.append_assoc], ?_⟩
  intro x hx
  rcases List.mem_append.mp hx with h | h
  · exact p1 x h
  · exact p2 x h

theorem Quiet.count {d d1 : phy_device σ} (h : Quiet d d1) (e : Event)
    (he : Event.isMark e = true) : d1.trace.count e = d.trace.count e := by
  obtain ⟨l, e1, p1⟩ := h
  rw [e1, List.count_append]
  have : l.count e = 0 := by
    apply List.count_eq_zero.mpr
    intro hmem
    have := p1 e hmem
    rw [he] at this
    exact Bool.noConfusion this
  omega

theorem quiet_PHY_READ (T : Transport σ) (d : phy_device σ) (regnum : Nat) :
    Quiet d (PHY_READ T d regnum).2 :=
  ⟨[Event.read regnum (T.phy_read d.bus regnum).1], rfl, by simp [Event.isMark]⟩

theorem quiet_PHY_WRITE (T : Transport σ) (d : phy_device σ) (regnum : Nat) (val : Int) :
    Quiet d (PHY_WRITE T d regnum val).2 :=
  ⟨[Event.write regnum (toU16 val) (T.phy_write d.bus regnum (toU16 val)).1], rfl,
    by simp [Event.isMark]⟩

theorem quiet_read_paged (T : Transport σ) (d : phy_device σ) (page : Int) (regnum : Nat) :
    Quiet d (maxio_read_paged T d page regnum).2 := by
  have h0 : Quiet d (d.log (Event.call Fn.maxio_read_paged [page, (regnum : Int)])) :=
    ⟨[_], rfl, by simp [Event.isMark]⟩
  unfold maxio_read_paged
  refine (h0.trans (quiet_PHY_READ T _ MAXIO_PAGE_SELECT)).trans ?_
  refine Quiet.trans ?_ (quiet_PHY_WRITE T _ _ _)
  dsimp only
  split
  · exact (quiet_PHY_WRITE T _ _ _).trans (quiet_PHY_READ T _ _)
  · exact Quiet.refl _

theorem quiet_write_paged (T : Transport σ) (d : phy_device σ) (page : Int) (regnum : Nat)
    (val : Int) : Quiet d (maxio_write_paged T d page regnum val).2 := by
  have h0 : Quiet d (d.log (Event.call Fn.maxio_write_paged [page, (regnum : Int), val])) :=
    ⟨[_], rfl, by simp [Event.isMark]⟩
  unfold maxio_write_paged
  refine (h0.trans (quiet_PHY_READ T _ MAXIO_PAGE_SELECT)).trans ?_
  refine Quiet.trans ?_ (quiet_PHY_WRITE T _ _ _)
  dsimp only
  split
  · exact (quiet_PHY_WRITE T _ _ _).trans (quiet_PHY_WRITE T _ _ _)
  · exact Quiet.refl _

theorem quiet_adcc_channel (T : Transport σ) (d : phy_device σ) (i : Int) :
    Quiet d (maxio_adcc_channel T d i).2 :=
  (quiet_write_paged T d _ _ _).trans (quiet_read_paged T _ _ _)

theorem quiet_adcc_loop (T : Transport σ) (n : Nat) :
    ∀ (i ret : Int) (d : phy_device σ), Quiet d (maxio_adcc_loop T n i ret d).2 := by
  induction n with
  | zero => intro i ret d; exact Quiet.refl d
  | succ n ih =>
    intro i ret d
    unfold maxio_adcc_loop
    dsimp only
    split
    · exact (quiet_adcc_channel T d i).trans (ih _ _ _)
    · exact quiet_adcc_channel T d i

end TraceLemmas

/-! ## The calibration engine -/

section Calibration

variable {σ : Type}

theorem adcc_check_trace (T : Transport σ) (d : phy_device σ) :
    Quiet (d.log adccCall) (maxio_adcc_check T d).2 := by
  unfold maxio_adcc_check
  exact ((quiet_write_paged T _ _ _ _).trans (quiet_write_paged T _ _ _ _)).trans
    (quiet_adcc_loop T 4 0 0 _)

theorem adcc_check_checks (T : Transport σ) (d : phy_device σ) :
    checksIn (maxio_adcc_check T d).2.trace = checksIn d.trace + 1 := by
  unfold checksIn
  rw [(adcc_check_trace T d).count adccCall rfl]
  simp [phy_device.log, List.count_append]

theorem adcc_check_recoveries (T : Transport σ) (d : phy_device σ) :
    recoveriesIn (maxio_adcc_check T d).2.trace = recoveriesIn d.trace := by
  unfold recoveriesIn
  rw [(adcc_check_trace T d).count (Event.msleep 10) rfl]
  simp [phy_device.log, List.count_append, adccCall]

theorem recover_trace (T : Transport σ) (d : phy_device σ) :
    ∃ d1 d2, Quiet d d1 ∧ d2.trace = d1.trace ++ [Event.msleep 10]
      ∧ Quiet d2 (maxio_self_check_recover T d) := by
  refine ⟨(PHY_WRITE T (maxio_write_paged T d 0x0 0x0 0x1940).2 MAXIO_PAGE_SELECT 0x0).2,
    msleep T (PHY_WRITE T (maxio_write_paged T d 0x0 0x0 0x1940).2 MAXIO_PAGE_SELECT 0x0).2 10,
    (quiet_write_paged T _ _ _ _).trans (quiet_PHY_WRITE T _ _ _), rfl, ?_⟩
  unfold maxio_self_check_recover
  exact (quiet_write_paged T _ _ _ _).trans (quiet_write_paged T _ _ _ _)

theorem recover_checks (T : Transport σ) (d : phy_device σ) :
    checksIn (maxio_self_check_recover T d).trace = checksIn d.trace := by
  obtain ⟨d1, d2, h1, h2, h3⟩ := recover_trace T d
  unfold checksIn
  rw [h3.count adccCall rfl, h2, List.count_append, h1.count adccCall rfl]
  simp [adccCall]

theorem recover_recoveries (T : Transport σ) (d : phy_device σ) :
    recoveriesIn (maxio_self_check_recover T d).trace = recoveriesIn d.trace + 1 := by
  obtain ⟨d1, d2, h1, h2, h3⟩ := recover_trace T d
  unfold recoveriesIn
  rw [h3.count (Event.msleep 10) rfl, h2, List.count_append,
    h1.count (Event.msleep 10) rfl]
  simp

theorem retry_iterate_checks (T : Transport σ) (k : Nat) :
    ∀ d : phy_device σ,
      checksIn ((maxio_self_check_retry T)^[k] d).trace = checksIn d.trace + k := by
  induction k with
  | zero => intro d; rfl
  | succ k ih =>
    intro d
    rw [Function.iterate_succ_apply, ih]
    unfold maxio_self_check_retry
    rw [recover_checks, adcc_check_checks]
    omega

theorem retry_iterate_recoveries (T : Transport σ) (k : Nat) :
    ∀ d : phy_device σ,
      recoveriesIn ((maxio_self_check_retry T)^[k] d).trace = recoveriesIn d.trace + k := by
  induction k with
  | zero => intro d; rfl
  | succ k ih =>
    intro d
    rw [Function.iterate_succ_apply, ih]
    unfold maxio_self_check_retry
    rw [recover_recoveries, adcc_check_recoveries]
    omega

theorem finish_trace (T : Transport σ) (d : phy_device σ) :
    Quiet d (maxio_self_check_finish T d) := by
  unfold maxio_self_check_finish
  exact ((quiet_write_paged T _ _ _ _).trans (quiet_write_paged T _ _ _ _)).trans
    (quiet_PHY_WRITE T _ _ _)

/-- The retry loop after `k` failed rounds, `k` at most the number of rounds. -/
theorem self_check_loop_failed_rounds (T : Transport σ) (k : Nat) :
    ∀ (n : Nat) (ret : Int) (d : phy_device σ), k ≤ n →
      (∀ j, j < k → (maxio_adcc_check T ((maxio_self_check_retry T)^[j] d)).1 ≠ 0) →
      maxio_self_check_loop T n ret d =
        maxio_self_check_loop T (n - k)
          (if k = 0 then ret
            else (maxio_adcc_check T ((maxio_self_check_retry T)^[k - 1] d)).1)
          ((maxio_self_check_retry T)^[k] d) := by
  induction k with
  | zero => intro n ret d _ _; rfl
  | succ k ih =>
    intro n ret d hkn hfail
    obtain ⟨m, rfl⟩ : ∃ m, n = m + 1 := ⟨n - 1, by omega⟩
    have h0 : (maxio_adcc_check T d).1 ≠ 0 := hfail 0 (by omega)
    have hstep : maxio_self_check_loop T (m + 1) ret d =
        maxio_self_check_loop T m (maxio_adcc_check T d).1 (maxio_self_check_retry T d) := by
      simp [maxio_self_check_loop, h0, maxio_self_check_retry]
    rw [hstep, ih m _ (maxio_self_check_retry T d) (by omega)
      (fun j hj => by
        have := hfail (j + 1) (by omega)
        rwa [Function.iterate_succ_apply] at this)]
    have e1 : m + 1 - (k + 1) = m - k := by omega
    rw [e1, Function.iterate_succ_apply]
    congr 1
    by_cases hk : k = 0
    · subst hk; simp
    · obtain ⟨k1, rfl⟩ : ∃ k1, k = k1 + 1 := ⟨k - 1, by omega⟩
      simp [Function.iterate_succ_apply]

/-- A calibration check fails whenever the result read of channel 3 has its low
nine bits clear. -/
theorem adcc_check_fails_of_channel3 (T : Transport σ)
    (hch3 : ∀ d1 : phy_device σ, c_and (maxio_adcc_channel T d1 3).1 0x1ff = 0)
    (d : phy_device σ) : (maxio_adcc_check T d).1 = -1 := by
  unfold maxio_adcc_check
  simp only [maxio_adcc_loop]
  have e : (0 : Int) + 1 + 1 + 1 = 3 := by norm_num
  rw [e]
  split_ifs with h0 h1 h2 h3
  · exact absurd (hch3 _) h3
  all_goals rfl

/-- The trace of a paged write: its entry followed by bus transactions. -/
theorem write_paged_trace_shape (T : Transport σ) (d : phy_device σ) (page : Int)
    (regnum : Nat) (val : Int) :
    ∃ ops, (maxio_write_paged T d page regnum val).2.trace
        = d.trace ++ Event.call Fn.maxio_write_paged [page, (regnum : Int), val] :: ops
      ∧ ∀ x ∈ ops, Event.isBus x = true := by
  by_cases h : 0 ≤ (T.phy_read d.bus MAXIO_PAGE_SELECT).1
  · refine ⟨[Event.read MAXIO_PAGE_SELECT (T.phy_read d.bus MAXIO_PAGE_SELECT).1,
        Event.write MAXIO_PAGE_SELECT (toU16 page)
          (T.phy_write (T.phy_read d.bus MAXIO_PAGE_SELECT).2 MAXIO_PAGE_SELECT
            (toU16 page)).1,
        Event.write regnum (toU16 val)
          (T.phy_write (T.phy_write (T.phy_read d.bus MAXIO_PAGE_SELECT).2
            MAXIO_PAGE_SELECT (toU16 page)).2 regnum (toU16 val)).1,
        Event.write MAXIO_PAGE_SELECT (toU16 (T.phy_read d.bus MAXIO_PAGE_SELECT).1)
          (T.phy_write (T.phy_write (T.phy_write (T.phy_read d.bus MAXIO_PAGE_SELECT).2
            MAXIO_PAGE_SELECT (toU16 page)).2 regnum (toU16 val)).2 MAXIO_PAGE_SELECT
            (toU16 (T.phy_read d.bus MAXIO_PAGE_SELECT).1)).1], ?_, ?_⟩
    · simp only [maxio_write_paged, PHY_READ, PHY_WRITE, phy_device.log, h, if_true,
        List.append_assoc, List.cons_append, List.nil_append]
    · simp [Event.isBus]
  · refine ⟨[Event.read MAXIO_PAGE_SELECT (T.phy_read d.bus MAXIO_PAGE_SELECT).1,
        Event.write MAXIO_PAGE_SELECT (toU16 (T.phy_read d.bus MAXIO_PAGE_SELECT).1)
          (T.phy_write (T.phy_read d.bus MAXIO_PAGE_SELECT).2 MAXIO_PAGE_SELECT
            (toU16 (T.phy_read d.bus MAXIO_PAGE_SELECT).1)).1], ?_, ?_⟩
    · simp only [maxio_write_paged, PHY_READ, PHY_WRITE, phy_device.log, h, if_false,
        List.append_assoc, List.cons_append, List.nil_append]
    · simp [Event.isBus]

/-- C4: if the result read of calibration channel 3 always has its low nine
bits clear, then for every `checknum ≥ 1` the self-check runs
`maxio_adcc_check` exactly `checknum` times and returns a non-zero result. -/
theorem self_check_exhausts_attempts (T : Transport σ) (d : phy_device σ) (checknum : Int)
    (hn : 1 ≤ checknum)
    (hch3 : ∀ d1 : phy_device σ, c_and (maxio_adcc_channel T d1 3).1 0x1ff = 0) :
    (checksIn (maxio_self_check T d checknum).2.trace : Int)
        = checksIn d.trace + checknum
      ∧ (maxio_self_check T d checknum).1 ≠ 0 := by
  have hfail : ∀ d1 : phy_device σ, (maxio_adcc_check T d1).1 = -1 :=
    adcc_check_fails_of_channel3 T hch3
  obtain ⟨n, rfl⟩ : ∃ n : Nat, checknum = (n : Int) := ⟨checknum.toNat, by omega⟩
  have hn1 : 1 ≤ n := by omega
  have hloop := self_check_loop_failed_rounds T n n 0 d (le_refl n)
    (fun j _ => by rw [hfail]; decide)
  simp only [Nat.sub_self, maxio_self_check_loop, hfail] at hloop
  have hne : ¬ n = 0 := by omega
  simp only [hne, if_false] at hloop
  unfold maxio_self_check
  simp only [Int.toNat_ofNat, hloop]
  constructor
  · have hq := (finish_trace T ((maxio_self_check_retry T)^[n] d)).count adccCall rfl
    unfold checksIn at *
    rw [hq]
    have := retry_iterate_checks T n d
    unfold checksIn at this
    rw [this]
    push_cast
    rfl
  · decide

/-- A paged write appends the events of one paged write. -/
theorem write_paged_events (T : Transport σ) (d : phy_device σ) (page : Int)
    (regnum : Nat) (val : Int) :
    ∃ l, (maxio_write_paged T d page regnum val).2.trace = d.trace ++ l
      ∧ IsPagedWrite page regnum val l := by
  by_cases h : 0 ≤ (T.phy_read d.bus MAXIO_PAGE_SELECT).1
  · refine ⟨_, ?_, (T.phy_read d.bus MAXIO_PAGE_SELECT).1,
      (T.phy_write (T.phy_write (T.phy_write (T.phy_read d.bus MAXIO_PAGE_SELECT).2
        MAXIO_PAGE_SELECT (toU16 page)).2 regnum (toU16 val)).2 MAXIO_PAGE_SELECT
        (toU16 (T.phy_read d.bus MAXIO_PAGE_SELECT).1)).1,
      Or.inl ⟨h,
        (T.phy_write (T.phy_read d.bus MAXIO_PAGE_SELECT).2 MAXIO_PAGE_SELECT
          (toU16 page)).1,
        (T.phy_write (T.phy_write (T.phy_read d.bus MAXIO_PAGE_SELECT).2
          MAXIO_PAGE_SELECT (toU16 page)).2 regnum (toU16 val)).1, rfl⟩⟩
    simp only [maxio_write_paged, PHY_READ, PHY_WRITE, phy_device.log, h, if_true,
      List.append_assoc, List.cons_append, List.nil_append]
  · refine ⟨_, ?_, (T.phy_read d.bus MAXIO_PAGE_SELECT).1,
      (T.phy_write (T.phy_read d.bus MAXIO_PAGE_SELECT).2 MAXIO_PAGE_SELECT
        (toU16 (T.phy_read d.bus MAXIO_PAGE_SELECT).1)).1,
      Or.inr ⟨not_le.mp h, rfl⟩⟩
    simp only [maxio_write_paged, PHY_READ, PHY_WRITE, phy_device.log, h, if_false,
      List.append_assoc, List.cons_append, List.nil_append]

/-- The recovery branch appends the events of one recovery sequence. -/
theorem recover_events (T : Transport σ) (d : phy_device σ) :
    ∃ l, (maxio_self_check_recover T d).trace = d.trace ++ l ∧ IsRecovery l := by
  obtain ⟨w1, e1, p1⟩ := write_paged_events T d 0x0 0x0 0x1940
  obtain ⟨w2, e2, p2⟩ := write_paged_events T
    (msleep T (PHY_WRITE T (maxio_write_paged T d 0x0 0x0 0x1940).2
      MAXIO_PAGE_SELECT 0x0).2 10) 0x0 0x0 0x1140
  obtain ⟨w3, e3, p3⟩ := write_paged_events T
    (maxio_write_paged T (msleep T (PHY_WRITE T (maxio_write_paged T d 0x0 0x0 0x1940).2
      MAXIO_PAGE_SELECT 0x0).2 10) 0x0 0x0 0x1140).2 0x0 0x0 0x9140
  refine ⟨w1 ++ [Event.write MAXIO_PAGE_SELECT 0
      (T.phy_write (maxio_write_paged T d 0x0 0x0 0x1940).2.bus MAXIO_PAGE_SELECT
        (toU16 0)).1, Event.msleep 10] ++ w2 ++ w3, ?_, ⟨w1, _, w2, w3, rfl, p1, p2, p3⟩⟩
  unfold maxio_self_check_recover
  dsimp only
  rw [e3, e2]
  simp only [msleep, PHY_WRITE]
  rw [e1]
  simp only [List.append_assoc, List.cons_append, List.nil_append]
  rfl

/-- A calibration check appends the events of one calibration check. -/
theorem adcc_check_events (T : Transport σ) (d : phy_device σ) :
    ∃ l, (maxio_adcc_check T d).2.trace = d.trace ++ l ∧ IsCheck l := by
  obtain ⟨ops, e, hops⟩ := adcc_check_trace T d
  refine ⟨adccCall :: ops, ?_, ops, rfl, hops⟩
  rw [e]
  simp [phy_device.log]

/-- The finish sequence appends the events of one finish sequence. -/
theorem finish_events (T : Transport σ) (d : phy_device σ) :
    ∃ l, (maxio_self_check_finish T d).trace = d.trace ++ l ∧ IsFinish l := by
  obtain ⟨w1, e1, p1⟩ := write_paged_events T d 0xd96 0x2 0xfff
  obtain ⟨w2, e2, p2⟩ := write_paged_events T (maxio_write_paged T d 0xd96 0x2 0xfff).2
    0x0 0x0 0x9140
  refine ⟨w1 ++ w2 ++ [Event.write MAXIO_PAGE_SELECT 0
      (T.phy_write (maxio_write_paged T (maxio_write_paged T d 0xd96 0x2 0xfff).2
        0x0 0x0 0x9140).2.bus MAXIO_PAGE_SELECT (toU16 0)).1], ?_, ⟨w1, w2, _, rfl, p1, p2⟩⟩
  unfold maxio_self_check_finish
  simp only [PHY_WRITE]
  rw [e2, e1]
  simp only [List.append_assoc, List.cons_append, List.nil_append]
  rfl

/-- After `k` failed rounds the trace has grown by `k` times a calibration check
followed by a recovery sequence. -/
theorem retry_iterate_events (T : Transport σ) (k : Nat) :
    ∀ d : phy_device σ, ∃ l,
      ((maxio_self_check_retry T)^[k] d).trace = d.trace ++ l ∧ FailedRounds k l := by
  induction k with
  | zero => intro d; exact ⟨[], by simp, rfl⟩
  | succ k ih =>
    intro d
    obtain ⟨c, ec, pc⟩ := adcc_check_events T d
    obtain ⟨r, er, pr⟩ := recover_events T (maxio_adcc_check T d).2
    obtain ⟨rest, erest, prest⟩ := ih (maxio_self_check_retry T d)
    refine ⟨c ++ r ++ rest, ?_, c, r, rest, rfl, pc, pr, prest⟩
    rw [Function.iterate_succ_apply, erest]
    unfold maxio_self_check_retry
    rw [er, ec]
    simp only [List.append_assoc]

/-- C5: if the first `k - 1` calibration checks fail and the `k`-th succeeds
(`1 ≤ k ≤ checknum`), the self-check returns `0`, its final state is the finish
sequence applied right after the `k`-th check, and it has run exactly `k`
checks and exactly `k - 1` recovery sequences: its trace grows by `k - 1` times
(a check, then the paged write of `0x1940` to page 0 register 0, page-select
`:= 0`, `msleep(10)`, the paged writes of `0x1140` and `0x9140` to page 0
register 0), then the `k`-th check, the log line and the finish writes, and
nothing else. -/
theorem self_check_early_exit (T : Transport σ) (d : phy_device σ) (checknum : Int)
    (k : Nat) (hk : 1 ≤ k) (hkn : (k : Int) ≤ checknum)
    (hfail : ∀ j, j < k - 1 →
      (maxio_adcc_check T ((maxio_self_check_retry T)^[j] d)).1 ≠ 0)
    (hok : (maxio_adcc_check T ((maxio_self_check_retry T)^[k - 1] d)).1 = 0) :
    (maxio_self_check T d checknum).1 = 0
    ∧ (maxio_self_check T d checknum).2
        = maxio_self_check_finish T
            (printk (maxio_adcc_check T ((maxio_self_check_retry T)^[k - 1] d)).2)
    ∧ checksIn (maxio_self_check T d checknum).2.trace = checksIn d.trace + k
    ∧ recoveriesIn (maxio_self_check T d checknum).2.trace
        = recoveriesIn d.trace + (k - 1)
    ∧ ∃ rounds chk fin,
        (maxio_self_check T d checknum).2.trace
          = d.trace ++ rounds ++ chk ++ Event.printk :: fin
        ∧ FailedRounds (k - 1) rounds ∧ IsCheck chk ∧ IsFinish fin := by
  obtain ⟨n, rfl⟩ : ∃ n : Nat, checknum = (n : Int) := ⟨checknum.toNat, by omega⟩
  have hkn1 : k ≤ n := by exact_mod_cast hkn
  have hloop := self_check_loop_failed_rounds T (k - 1) n 0 d (by omega) hfail
  obtain ⟨m, hm⟩ : ∃ m, n - (k - 1) = m + 1 := ⟨n - k, by omega⟩
  rw [hm] at hloop
  simp only [maxio_self_check_loop, hok, if_true] at hloop
  have hres : (maxio_self_check T d (n : Int)).2 = maxio_self_check_finish T
      (printk (maxio_adcc_check T ((maxio_self_check_retry T)^[k - 1] d)).2) := by
    unfold maxio_self_check
    simp only [Int.toNat_ofNat, hloop]
  refine ⟨?_, hres, ?_, ?_, ?_⟩
  rotate_left 3
  · obtain ⟨rounds, e1, p1⟩ := retry_iterate_events T (k - 1) d
    obtain ⟨chk, e2, p2⟩ := adcc_check_events T ((maxio_self_check_retry T)^[k - 1] d)
    obtain ⟨fin, e3, p3⟩ := finish_events T
      (printk (maxio_adcc_check T ((maxio_self_check_retry T)^[k - 1] d)).2)
    refine ⟨rounds, chk, fin, ?_, p1, p2, p3⟩
    rw [hres, e3]
    simp only [printk, phy_device.log]
    rw [e2, e1]
    simp only [List.append_assoc, List.cons_append, List.nil_append]
  · unfold maxio_self_check
    simp only [Int.toNat_ofNat, hloop]
  · rw [hres]
    unfold checksIn
    rw [(finish_trace T _).count adccCall rfl]
    have h1 := adcc_check_checks T ((maxio_self_check_retry T)^[k - 1] d)
    have h2 := retry_iterate_checks T (k - 1) d
    unfold checksIn at h1 h2
    simp only [printk, phy_device.log, List.count_append, h1, h2]
    simp [adccCall]
    omega
  · rw [hres]
    unfold recoveriesIn
    rw [(finish_trace T _).count (Event.msleep 10) rfl]
    have h1 := adcc_check_recoveries T ((maxio_self_check_retry T)^[k - 1] d)
    have h2 := retry_iterate_recoveries T (k - 1) d
    unfold recoveriesIn at h1 h2
    simp only [printk, phy_device.log, List.count_append, h1, h2]
    simp

/-- C6 (amended): when every one of the `checknum ≥ 1` calibration attempts
fails, the recovery sequence is performed after each attempt, the final one
included: exactly `checknum` recovery sequences are issued, and the finish
sequence runs on the state left by `checknum` rounds of check-then-recover.
The trace grows by `checknum` times (a check, then the paged write of `0x1940`
to page 0 register 0, page-select `:= 0`, `msleep(10)`, the paged writes of
`0x1140` and `0x9140` to page 0 register 0), followed by the finish writes,
and nothing else. -/
theorem self_check_recovers_after_each_failure (T : Transport σ) (d : phy_device σ)
    (checknum : Int) (hn : 1 ≤ checknum)
    (hfail : ∀ j : Nat, (j : Int) < checknum →
      (maxio_adcc_check T ((maxio_self_check_retry T)^[j] d)).1 ≠ 0) :
    (recoveriesIn (maxio_self_check T d checknum).2.trace : Int)
        = recoveriesIn d.trace + checknum
      ∧ (maxio_self_check T d checknum).2
        = maxio_self_check_finish T ((maxio_self_check_retry T)^[checknum.toNat] d)
      ∧ ∃ rounds fin,
          (maxio_self_check T d checknum).2.trace = d.trace ++ rounds ++ fin
          ∧ FailedRounds checknum.toNat rounds ∧ IsFinish fin := by
  obtain ⟨n, rfl⟩ : ∃ n : Nat, checknum = (n : Int) := ⟨checknum.toNat, by omega⟩
  have hloop := self_check_loop_failed_rounds T n n 0 d (le_refl n)
    (fun j hj => hfail j (by exact_mod_cast hj))
  simp only [Nat.sub_self, maxio_self_check_loop] at hloop
  have hres : (maxio_self_check T d (n : Int)).2
      = maxio_self_check_finish T ((maxio_self_check_retry T)^[n] d) := by
    unfold maxio_self_check
    simp only [Int.toNat_ofNat, hloop]
  refine ⟨?_, by simpa using hres, ?_⟩
  rotate_left
  · obtain ⟨rounds, e1, p1⟩ := retry_iterate_events T n d
    obtain ⟨fin, e3, p3⟩ := finish_events T ((maxio_self_check_retry T)^[n] d)
    refine ⟨rounds, fin, ?_, by simpa using p1, p3⟩
    rw [hres, e3, e1]
  rw [hres]
  unfold recoveriesIn
  rw [(finish_trace T _).count (Event.msleep 10) rfl]
  have := retry_iterate_recoveries T n d
  unfold recoveriesIn at this
  rw [this]
  push_cast
  rfl

theorem chan3Bus_channel3 (d1 : phy_device Nat) :
    c_and (maxio_adcc_channel chan3Bus d1 3).1 0x1ff = 0 := by
  simp [maxio_adcc_channel, maxio_read_paged, maxio_write_paged, PHY_READ, PHY_WRITE,
    chan3Bus, phy_device.log, MAXIO_PAGE_SELECT]
  decide

/-- Witness for C4: on `chan3Bus` channels 0..2 pass and channel 3 fails; with
`checknum = 2` the self-check runs two checks and returns `-1`. -/
theorem self_check_exhausts_attempts_witness :
    c_and (maxio_adcc_channel chan3Bus (phy_device.init 0 none) 0).1 0x1ff ≠ 0
    ∧ c_and (maxio_adcc_channel chan3Bus (phy_device.init 0 none) 1).1 0x1ff ≠ 0
    ∧ c_and (maxio_adcc_channel chan3Bus (phy_device.init 0 none) 2).1 0x1ff ≠ 0
    ∧ (checksIn (maxio_self_check chan3Bus (phy_device.init 0 none) 2).2.trace : Int)
        = checksIn (phy_device.init (0 : Nat) none).trace + 2
    ∧ (maxio_self_check chan3Bus (phy_device.init 0 none) 2).1 ≠ 0 :=
  ⟨by decide, by decide, by decide,
    self_check_exhausts_attempts chan3Bus (phy_device.init 0 none) 2 (by decide)
      chan3Bus_channel3⟩

set_option maxRecDepth 20000 in
/-- Witness for C5: on `settleBus` the first two checks fail and the third
succeeds; with `checknum = 50` the self-check returns `0` after exactly three
checks and two recovery sequences, each with its paged write of `0x1940`. -/
theorem self_check_early_exit_witness :
    (maxio_self_check settleBus (phy_device.init 0 none) 50).1 = 0
    ∧ checksIn (maxio_self_check settleBus (phy_device.init 0 none) 50).2.trace = 3
    ∧ recoveriesIn (maxio_self_check settleBus (phy_device.init 0 none) 50).2.trace = 2
    ∧ (maxio_self_check settleBus (phy_device.init 0 none) 50).2.trace.count
        (Event.call Fn.maxio_write_paged [0x0, 0x0, 0x1940]) = 2
    ∧ ∃ rounds chk fin,
        (maxio_self_check settleBus (phy_device.init 0 none) 50).2.trace
          = rounds ++ chk ++ Event.printk :: fin
        ∧ FailedRounds 2 rounds ∧ IsCheck chk ∧ IsFinish fin := by
  have h := self_check_early_exit settleBus (phy_device.init 0 none) 50 3 (by decide)
    (by decide)
    (by
      intro j hj
      have hj2 : j < 2 := hj
      interval_cases j
      · decide
      · decide)
    (by decide)
  exact ⟨h.1, h.2.2.1, h.2.2.2.1, by decide, h.2.2.2.2⟩

/-- C6 (counterexample): on `chan3Bus` every attempt fails; with `checknum = 1`
one recovery sequence is issued (not `0`), and with `checknum = 2` two are
issued (not `1`): the recovery also follows the final attempt.  With
`checknum = 1` the 51 events of the only check are followed by the whole
recovery sequence. -/
theorem self_check_recovers_after_final_attempt :
    (maxio_adcc_check chan3Bus (phy_device.init 0 none)).1 = -1
    ∧ recoveriesIn (maxio_self_check chan3Bus (phy_device.init 0 none) 1).2.trace = 1
    ∧ recoveriesIn (maxio_self_check chan3Bus (phy_device.init 0 none) 2).2.trace = 2
    ∧ (maxio_adcc_check chan3Bus (phy_device.init 0 none)).2.trace.length = 51
    ∧ ((maxio_self_check chan3Bus (phy_device.init 0 none) 1).2.trace.drop 51).take 17
        = [Event.call Fn.maxio_write_paged [0x0, 0x0, 0x1940],
            Event.read 0x1f 0, Event.write 0x1f 0 0, Event.write 0x0 0x1940 0,
            Event.write 0x1f 0 0,
            Event.write 0x1f 0 0,
            Event.msleep 10,
            Event.call Fn.maxio_write_paged [0x0, 0x0, 0x1140],
            Event.read 0x1f 0, Event.write 0x1f 0 0, Event.write 0x0 0x1140 0,
            Event.write 0x1f 0 0,
            Event.call Fn.maxio_write_paged [0x0, 0x0, 0x9140],
            Event.read 0x1f 0, Event.write 0x1f 0 0, Event.write 0x0 0x9140 0,
            Event.write 0x1f 0 0] := by
  decide

set_option maxRecDepth 20000 in
/-- Witness for C6 (amended): on `chan3Bus` with `checknum = 3` all three
attempts fail and three recovery sequences are issued, each with its paged
write of `0x1940`. -/
theorem self_check_recovers_after_each_failure_witness :
    (recoveriesIn (maxio_self_check chan3Bus (phy_device.init 0 none) 3).2.trace : Int)
      = recoveriesIn (phy_device.init (0 : Nat) none).trace + 3
    ∧ (maxio_self_check chan3Bus (phy_device.init 0 none) 3).2.trace.count
        (Event.call Fn.maxio_write_paged [0x0, 0x0, 0x1940]) = 3
    ∧ ∃ rounds fin,
        (maxio_self_check chan3Bus (phy_device.init 0 none) 3).2.trace = rounds ++ fin
        ∧ FailedRounds 3 rounds ∧ IsFinish fin := by
  have h := self_check_recovers_after_each_failure chan3Bus (phy_device.init 0 none) 3
    (by decide)
    (fun j _ => by
      rw [adcc_check_fails_of_channel3 chan3Bus chan3Bus_channel3]
      decide)
  exact ⟨h.1, by decide, h.2.2⟩

/-- C7: for every `checknum` (zero and negative included) and every
calibration outcome, the last actions of `maxio_self_check` are, in this order,
the paged write of `0xfff` to (page `0xd96`, register `0x2`), the paged write of
`0x9140` to (page `0`, register `0`) and a direct write of `0` to the
page-select register, with nothing but the bus transactions of the two paged
writes in between; on a transport whose page-select writes take effect the
page-select register holds `0` on return. -/
theorem self_check_always_finalizes (T : Transport σ) (d : phy_device σ) (checknum : Int) :
    (∃ ops1 ops2 r,
      (maxio_self_check T d checknum).2.trace
        = (maxio_self_check_loop T checknum.toNat 0 d).2.trace
          ++ Event.call Fn.maxio_write_paged [0xd96, 0x2, 0xfff] :: ops1
          ++ Event.call Fn.maxio_write_paged [0x0, 0x0, 0x9140] :: ops2
          ++ [Event.write MAXIO_PAGE_SELECT 0 r]
      ∧ (∀ x ∈ ops1, Event.isBus x = true) ∧ (∀ x ∈ ops2, Event.isBus x = true))
    ∧ ∀ sel : σ → Nat, (∀ b v, sel (T.phy_write b MAXIO_PAGE_SELECT v).2 = v) →
        sel (maxio_self_check T d checknum).2.bus = 0 := by
  constructor
  · obtain ⟨ops1, e1, p1⟩ := write_paged_trace_shape T
      (maxio_self_check_loop T checknum.toNat 0 d).2 0xd96 0x2 0xfff
    obtain ⟨ops2, e2, p2⟩ := write_paged_trace_shape T
      (maxio_write_paged T (maxio_self_check_loop T checknum.toNat 0 d).2 0xd96 0x2 0xfff).2
      0x0 0x0 0x9140
    refine ⟨ops1, ops2,
      (T.phy_write (maxio_write_paged T (maxio_write_paged T
        (maxio_self_check_loop T checknum.toNat 0 d).2 0xd96 0x2 0xfff).2
        0x0 0x0 0x9140).2.bus MAXIO_PAGE_SELECT (toU16 0)).1, ?_, p1, p2⟩
    unfold maxio_self_check maxio_self_check_finish
    simp only [PHY_WRITE]
    rw [e2, e1]
    rfl
  · intro sel hsel
    unfold maxio_self_check maxio_self_check_finish
    simp only [PHY_WRITE]
    exact hsel _ _

/-- Witness for C7: on a plain register memory whose page-select register
holds `7`, the self-check with `checknum = 0` leaves it at `0`. -/
theorem self_check_always_finalizes_witness :
    (phy_device.init (fun _ => 7 : Nat → Nat) none).bus MAXIO_PAGE_SELECT = 7
    ∧ (maxio_self_check plainRegs (phy_device.init (fun _ => 7) none) 0).2.bus
        MAXIO_PAGE_SELECT = 0 :=
  ⟨rfl, (self_check_always_finalizes plainRegs (phy_device.init (fun _ => 7) none) 0).2
    (fun b => b MAXIO_PAGE_SELECT) (fun b v => by simp [plainRegs])⟩

end Calibration

/-! ## Device profile application -/

section Profile

variable {σ : Type}

/-- C8: whatever the transport does (any reads or writes failing, calibration
converging or not), both `config_init` hooks return `0`. -/
theorem config_init_returns_zero (T : Transport σ) (d : phy_device σ) :
    (maxio_mae0621a_config_init T d).1 = 0
      ∧ (maxio_mae0621aq3ci_config_init T d).1 = 0 :=
  ⟨rfl, rfl⟩

end Profile

/-! ## The link debounce machine -/

section Debounce

variable {σ : Type}

theorem restart_aneg_trace (T : Transport σ) (d : phy_device σ) :
    Quiet (d.log restartCall) (maxio_restart_aneg T d).2 := by
  unfold maxio_restart_aneg
  dsimp only
  split
  · exact quiet_PHY_READ T _ _
  · exact (quiet_PHY_READ T _ _).trans (quiet_PHY_WRITE T _ _ _)

theorem restart_aneg_restarts (T : Transport σ) (d : phy_device σ) :
    restartsIn (maxio_restart_aneg T d).2.trace = restartsIn d.trace + 1 := by
  unfold restartsIn
  rw [(restart_aneg_trace T d).count restartCall rfl]
  simp [phy_device.log, List.count_append]

theorem read_paged_restarts (T : Transport σ) (d : phy_device σ) (page : Int)
    (regnum : Nat) :
    restartsIn (maxio_read_paged T d page regnum).2.trace = restartsIn d.trace :=
  (quiet_read_paged T d page regnum).count restartCall rfl

theorem read_paged_link (T : Transport σ) (d : phy_device σ) (page : Int) (regnum : Nat) :
    (maxio_read_paged T d page regnum).2.link = d.link := by
  unfold maxio_read_paged
  dsimp only
  split <;> rfl

theorem afterStatusReads_restarts (T : Transport σ) (d : phy_device σ) :
    restartsIn (afterStatusReads T d).trace = restartsIn d.trace := by
  unfold afterStatusReads
  rw [read_paged_restarts, read_paged_restarts, read_paged_restarts]

theorem afterStatusReads_link (T : Transport σ) (d : phy_device σ) :
    (afterStatusReads T d).link = d.link := by
  unfold afterStatusReads
  rw [read_paged_link, read_paged_link, read_paged_link]

/-- Auto-negotiation pending, not yet stable, fewer than four restarts so far:
the invocation restarts auto-negotiation, reports the link down and counts. -/
theorem resolve_pending_restart (T : Transport σ) (d : phy_device σ) (c : Int)
    (hp : d.priv = some (c, 0)) (hs : AnegPending T d) (hc : c < 4) :
    phy_resolve_link_compatibility_maxio T d
      = some { (maxio_restart_aneg T (afterStatusReads T d)).2 with
                link := 0, priv := some (c + 1, 0) } := by
  obtain ⟨h1, h2, h3⟩ := hs
  simp only [statusWords] at h1 h2 h3
  simp [phy_resolve_link_compatibility_maxio, hp, h1, h2, h3, maxio_debounce, hc,
    afterStatusReads]

/-- Auto-negotiation pending, not yet stable, four restarts already issued:
the invocation accepts the link as stable without a restart. -/
theorem resolve_pending_give_up (T : Transport σ) (d : phy_device σ)
    (hp : d.priv = some (4, 0)) (hs : AnegPending T d) :
    phy_resolve_link_compatibility_maxio T d
      = some { afterStatusReads T d with priv := some (0, 1) } := by
  obtain ⟨h1, h2, h3⟩ := hs
  simp only [statusWords] at h1 h2 h3
  simp [phy_resolve_link_compatibility_maxio, hp, h1, h2, h3, maxio_debounce,
    afterStatusReads]

/-- Auto-negotiation completed: the invocation resets the counter and marks the
link stable, whatever the state was. -/
theorem resolve_done (T : Transport σ) (d : phy_device σ) (c st : Int)
    (hp : d.priv = some (c, st)) (hs : AnegDone T d) :
    phy_resolve_link_compatibility_maxio T d
      = some { afterStatusReads T d with priv := some (0, 1) } := by
  obtain ⟨h1, h2, h3⟩ := hs
  simp only [statusWords] at h1 h2 h3
  simp [phy_resolve_link_compatibility_maxio, hp, h1, h2, h3, maxio_debounce,
    afterStatusReads]

theorem statusBus_pending (d : phy_device Unit) : AnegPending (statusBus 0) d := by
  simp [AnegPending, statusWords, maxio_read_paged, PHY_READ, PHY_WRITE, statusBus,
    phy_device.log, MAXIO_PAGE_SELECT]
  decide

theorem statusBus_done (d : phy_device Unit) : AnegDone (statusBus 0x8) d := by
  simp [AnegDone, statusWords, maxio_read_paged, PHY_READ, PHY_WRITE, statusBus,
    phy_device.log, MAXIO_PAGE_SELECT]
  decide

/-- C9: starting from `(consecutive_incomplete_count, is_stable) = (0, false)`,
five consecutive invocations that each see the interrupt enabled, the link OK
and auto-negotiation not completed issue exactly one restart on each of the
first four invocations (after `i ≤ 4` invocations the counter is `i` and `i`
restarts have been issued); the fifth issues none and sets `is_stable`. -/
theorem debounce_restart_bound (T : Transport σ) (d0 : phy_device σ)
    (hp : d0.priv = some (0, 0))
    (hsee : ∀ i, i < 5 → ∀ di, polls T i d0 = some di → AnegPending T di) :
    (∀ i : Nat, i ≤ 4 → ∃ di, polls T i d0 = some di ∧ di.priv = some ((i : Int), 0)
        ∧ restartsIn di.trace = restartsIn d0.trace + i)
    ∧ ∃ d5, polls T 5 d0 = some d5 ∧ d5.priv = some (0, 1)
        ∧ restartsIn d5.trace = restartsIn d0.trace + 4 := by
  have first : ∀ i : Nat, i ≤ 4 → ∃ di, polls T i d0 = some di
      ∧ di.priv = some ((i : Int), 0)
      ∧ restartsIn di.trace = restartsIn d0.trace + i := by
    intro i
    induction i with
    | zero => intro _; exact ⟨d0, rfl, by simpa using hp, rfl⟩
    | succ i ih =>
      intro hi
      obtain ⟨di, hpoll, hpriv, hcnt⟩ := ih (by omega)
      have hstep := resolve_pending_restart T di (i : Int) hpriv
        (hsee i (by omega) di hpoll) (by omega)
      refine ⟨_, by simp only [polls, hpoll, Option.bind_some]; exact hstep, ?_, ?_⟩
      · simp
      · show restartsIn (maxio_restart_aneg T (afterStatusReads T di)).2.trace = _
        rw [restart_aneg_restarts, afterStatusReads_restarts, hcnt]
        omega
  refine ⟨first, ?_⟩
  obtain ⟨d4, hpoll, hpriv, hcnt⟩ := first 4 (le_refl 4)
  have hstep := resolve_pending_give_up T d4 (by simpa using hpriv)
    (hsee 4 (by omega) d4 hpoll)
  have h5 : polls T 5 d0 = (polls T 4 d0).bind (phy_resolve_link_compatibility_maxio T) :=
    rfl
  refine ⟨_, by rw [h5, hpoll]; exact hstep, rfl, ?_⟩
  show restartsIn (afterStatusReads T d4).trace = _
  rw [afterStatusReads_restarts, hcnt]

/-- Witness for C9: on `statusBus 0` every invocation sees auto-negotiation
pending; from `(0, false)` five invocations end in `(0, true)` with four
restarts in the trace. -/
theorem debounce_restart_bound_witness :
    ∃ d5, polls (statusBus 0) 5 (phy_device.init () (some (0, 0))) = some d5
      ∧ d5.priv = some (0, 1)
      ∧ restartsIn d5.trace
          = restartsIn (phy_device.init () (some (0, 0))).trace + 4 :=
  (debounce_restart_bound (statusBus 0) (phy_device.init () (some (0, 0))) rfl
    (fun _ _ di _ => statusBus_pending di)).2

/-- C10: from any debounce state, one invocation that sees the interrupt
enabled, the link OK and auto-negotiation completed leaves the state at
`(consecutive_incomplete_count, is_stable) = (0, true)` and issues no restart
(nor does it touch `phydev->link`). -/
theorem debounce_reset_on_completion (T : Transport σ) (d : phy_device σ) (c st : Int)
    (hp : d.priv = some (c, st)) (hs : AnegDone T d) :
    ∃ d1, phy_resolve_link_compatibility_maxio T d = some d1
      ∧ d1.priv = some (0, 1)
      ∧ restartsIn d1.trace = restartsIn d.trace
      ∧ d1.link = d.link :=
  ⟨_, resolve_done T d c st hp hs, rfl, afterStatusReads_restarts T d,
    afterStatusReads_link T d⟩

/-- Witness for C10: on `statusBus 0x8` an invocation from state `(3, 0)` ends
in `(0, 1)` without a restart. -/
theorem debounce_reset_on_completion_witness :
    ∃ d1, phy_resolve_link_compatibility_maxio (statusBus 0x8)
        (phy_device.init () (some (3, 0))) = some d1
      ∧ d1.priv = some (0, 1)
      ∧ restartsIn d1.trace = restartsIn (phy_device.init () (some (3, 0))).trace
      ∧ d1.link = (phy_device.init () (some (3, 0))).link :=
  debounce_reset_on_completion (statusBus 0x8) (phy_device.init () (some (3, 0))) 3 0 rfl
    (statusBus_done _)

end Debounce

/-! ## Entries of the paged port in the trace -/

section PagedCalls

variable {σ : Type}

theorem count_eq_zero_of_bus (ops : List Event) (e : Event)
    (hops : ∀ x ∈ ops, Event.isBus x = true) (he : Event.isBus e = false) :
    ops.count e = 0 := by
  apply List.count_eq_zero.mpr
  intro hmem
  have := hops e hmem
  rw [he] at this
  exact Bool.noConfusion this

/-- The trace of a paged read: its entry followed by bus transactions. -/
theorem read_paged_trace_shape (T : Transport σ) (d : phy_device σ) (page : Int)
    (regnum : Nat) :
    ∃ ops, (maxio_read_paged T d page regnum).2.trace
        = d.trace ++ Event.call Fn.maxio_read_paged [page, (regnum : Int)] :: ops
      ∧ ∀ x ∈ ops, Event.isBus x = true := by
  by_cases h : 0 ≤ (T.phy_read d.bus MAXIO_PAGE_SELECT).1
  · refine ⟨[Event.read MAXIO_PAGE_SELECT (T.phy_read d.bus MAXIO_PAGE_SELECT).1,
        Event.write MAXIO_PAGE_SELECT (toU16 page)
          (T.phy_write (T.phy_read d.bus MAXIO_PAGE_SELECT).2 MAXIO_PAGE_SELECT
            (toU16 page)).1,
        Event.read regnum
          (T.phy_read (T.phy_write (T.phy_read d.bus MAXIO_PAGE_SELECT).2
            MAXIO_PAGE_SELECT (toU16 page)).2 regnum).1,
        Event.write MAXIO_PAGE_SELECT (toU16 (T.phy_read d.bus MAXIO_PAGE_SELECT).1)
          (T.phy_write (T.phy_read (T.phy_write (T.phy_read d.bus MAXIO_PAGE_SELECT).2
            MAXIO_PAGE_SELECT (toU16 page)).2 regnum).2 MAXIO_PAGE_SELECT
            (toU16 (T.phy_read d.bus MAXIO_PAGE_SELECT).1)).1], ?_, ?_⟩
    · simp only [maxio_read_paged, PHY_READ, PHY_WRITE, phy_device.log, h, if_true,
        List.append_assoc, List.cons_append, List.nil_append]
    · simp [Event.isBus]
  · refine ⟨[Event.read MAXIO_PAGE_SELECT (T.phy_read d.bus MAXIO_PAGE_SELECT).1,
        Event.write MAXIO_PAGE_SELECT (toU16 (T.phy_read d.bus MAXIO_PAGE_SELECT).1)
          (T.phy_write (T.phy_read d.bus MAXIO_PAGE_SELECT).2 MAXIO_PAGE_SELECT
            (toU16 (T.phy_read d.bus MAXIO_PAGE_SELECT).1)).1], ?_, ?_⟩
    · simp only [maxio_read_paged, PHY_READ, PHY_WRITE, phy_device.log, h, if_false,
        List.append_assoc, List.cons_append, List.nil_append]
    · simp [Event.isBus]

/-- Occurrences of a non-bus event after a paged read. -/
theorem read_paged_count (T : Transport σ) (d : phy_device σ) (page : Int) (regnum : Nat)
    (e : Event) (he : Event.isBus e = false) :
    (maxio_read_paged T d page regnum).2.trace.count e
      = d.trace.count e
        + (if Event.call Fn.maxio_read_paged [page, (regnum : Int)] = e then 1 else 0) := by
  obtain ⟨ops, h1, h2⟩ := read_paged_trace_shape T d page regnum
  rw [h1, List.count_append, List.count_cons, count_eq_zero_of_bus ops e h2 he]
  simp

/-- Occurrences of a non-bus event after a paged write. -/
theorem write_paged_count (T : Transport σ) (d : phy_device σ) (page : Int) (regnum : Nat)
    (val : Int) (e : Event) (he : Event.isBus e = false) :
    (maxio_write_paged T d page regnum val).2.trace.count e
      = d.trace.count e
        + (if Event.call Fn.maxio_write_paged [page, (regnum : Int), val] = e
            then 1 else 0) := by
  obtain ⟨ops, h1, h2⟩ := write_paged_trace_shape T d page regnum val
  rw [h1, List.count_append, List.count_cons, count_eq_zero_of_bus ops e h2 he]
  simp

end PagedCalls

/-! ## The channels of a calibration check -/

section Channels

variable {σ : Type}

theorem adcc_check_eq_loop (T : Transport σ) (d : phy_device σ) :
    maxio_adcc_check T d = maxio_adcc_loop T 4 0 0 (adccStart T d) := rfl

/-- One iteration of the channel loop, entered at channel `k`. -/
theorem adcc_loop_step (T : Transport σ) (d : phy_device σ) (n k : Nat) (ret : Int) :
    maxio_adcc_loop T (n + 1) (k : Int) ret (adccChanState T d k)
      = if adccPass T d k then
          maxio_adcc_loop T n ((k + 1 : Nat) : Int) ret (adccChanState T d (k + 1))
        else (-1, adccChanState T d (k + 1)) := by
  have e : ((k + 1 : Nat) : Int) = (k : Int) + 1 := by push_cast; rfl
  rw [e]
  rfl

/-- A calibration check as a decision over the four channels. -/
theorem adcc_check_cases (T : Transport σ) (d : phy_device σ) :
    maxio_adcc_check T d =
      if adccPass T d 0 then
        if adccPass T d 1 then
          if adccPass T d 2 then
            if adccPass T d 3 then (0, adccChanState T d 4)
            else (-1, adccChanState T d 4)
          else (-1, adccChanState T d 3)
        else (-1, adccChanState T d 2)
      else (-1, adccChanState T d 1) := by
  have h0 := adcc_loop_step T d 3 0 0
  have h1 := adcc_loop_step T d 2 1 0
  have h2 := adcc_loop_step T d 1 2 0
  have h3 := adcc_loop_step T d 0 3 0
  simp only [Nat.cast_zero, Nat.cast_one, Nat.cast_ofNat, Nat.reduceAdd] at h0 h1 h2 h3
  have hs : adccStart T d = adccChanState T d 0 := rfl
  rw [adcc_check_eq_loop, hs, h0, h1, h2, h3]
  rfl

theorem adccStart_count (T : Transport σ) (d : phy_device σ) (e : Event)
    (he : Event.isBus e = false) :
    (adccStart T d).trace.count e
      = d.trace.count e + (if adccCall = e then 1 else 0)
        + (if Event.call Fn.maxio_write_paged [0xd96, 0x2, 0x1fff] = e then 1 else 0)
        + (if Event.call Fn.maxio_write_paged [0xd96, 0x2, 0x1000] = e then 1 else 0) := by
  unfold adccStart
  rw [write_paged_count T _ _ _ _ e he, write_paged_count T _ _ _ _ e he]
  simp only [phy_device.log, List.count_append, List.count_cons, List.count_nil]
  simp

theorem adccChanState_count_succ (T : Transport σ) (d : phy_device σ) (k : Nat) (e : Event)
    (he : Event.isBus e = false) :
    (adccChanState T d (k + 1)).trace.count e
      = (adccChanState T d k).trace.count e
        + (if selectorCall (k : Int) = e then 1 else 0)
        + (if resultCall = e then 1 else 0) := by
  show (maxio_adcc_channel T (adccChanState T d k) (k : Int)).2.trace.count e = _
  unfold maxio_adcc_channel
  rw [read_paged_count T _ _ _ e he, write_paged_count T _ _ _ _ e he]
  rfl

theorem adccChanState_resultReads (T : Transport σ) (d : phy_device σ) (k : Nat) :
    (adccChanState T d k).trace.count resultCall = d.trace.count resultCall + k := by
  induction k with
  | zero =>
    show (adccStart T d).trace.count resultCall = _
    rw [adccStart_count T d resultCall rfl]
    simp [resultCall, adccCall]
  | succ k ih =>
    rw [adccChanState_count_succ T d k resultCall rfl, ih]
    simp [resultCall, selectorCall]
    omega

theorem adccChanState_selectorWrites (T : Transport σ) (d : phy_device σ) (i : Nat)
    (k : Nat) :
    (adccChanState T d k).trace.count (selectorCall (i : Int))
      = d.trace.count (selectorCall (i : Int)) + (if i < k then 1 else 0) := by
  induction k with
  | zero =>
    show (adccStart T d).trace.count (selectorCall (i : Int)) = _
    rw [adccStart_count T d (selectorCall (i : Int)) rfl]
    simp [selectorCall, adccCall]
  | succ k ih =>
    rw [adccChanState_count_succ T d k (selectorCall (i : Int)) rfl, ih]
    have hsel : (selectorCall (k : Int) = selectorCall (i : Int)) ↔ k = i := by
      simp only [selectorCall, Event.call.injEq, List.cons.injEq, true_and, and_true]
      constructor
      · intro h; omega
      · intro h; subst h; rfl
    have hres : ¬ (resultCall = selectorCall (i : Int)) := by
      simp [resultCall, selectorCall]
    simp only [hsel, hres, if_false, Nat.add_zero]
    by_cases h1 : i < k
    · have h2 : ¬ k = i := by omega
      have h3 : i < k + 1 := by omega
      simp [h1, h2, h3]
    · by_cases h2 : k = i
      · have h3 : i < k + 1 := by omega
        simp [h1, h2, h3]
      · have h3 : ¬ i < k + 1 := by omega
        simp [h1, h2, h3]

/-- C15: `maxio_adcc_check` returns `0` if and only if each of the four
channels passes, that is the value read from (page `0xd92`, register `0xb`)
after the selector write `0xf908 + 0x100 * i` to (page `0xd8f`, register `0xb`)
has one of its low nine bits set; otherwise it returns `-1`.  If `j` is the
first failing channel, the check ends right after the result read of channel
`j`: `j + 1` result reads are issued, one selector write for each channel up to
`j` and none for any channel greater than `j`.  If all pass, the check ends
after channel 3. -/
theorem adcc_check_channels (T : Transport σ) (d : phy_device σ) :
    ((maxio_adcc_check T d).1 = 0 ↔ ∀ i, i < 4 → adccPass T d i)
    ∧ ((maxio_adcc_check T d).1 = 0 ∨ (maxio_adcc_check T d).1 = -1)
    ∧ ((∀ i, i < 4 → adccPass T d i) →
        (maxio_adcc_check T d).2 = adccChanState T d 4)
    ∧ (∀ j, j < 4 → (∀ i, i < j → adccPass T d i) → ¬ adccPass T d j →
        (maxio_adcc_check T d).1 = -1
        ∧ (maxio_adcc_check T d).2 = adccChanState T d (j + 1)
        ∧ (maxio_adcc_check T d).2.trace.count resultCall
            = d.trace.count resultCall + (j + 1)
        ∧ ∀ i : Nat, (maxio_adcc_check T d).2.trace.count (selectorCall (i : Int))
            = d.trace.count (selectorCall (i : Int)) + (if i ≤ j then 1 else 0)) := by
  have key := adcc_check_cases T d
  have hall : (∀ i, i < 4 → adccPass T d i)
      ↔ adccPass T d 0 ∧ adccPass T d 1 ∧ adccPass T d 2 ∧ adccPass T d 3 := by
    constructor
    · intro h
      exact ⟨h 0 (by omega), h 1 (by omega), h 2 (by omega), h 3 (by omega)⟩
    · rintro ⟨h0, h1, h2, h3⟩ i hi
      interval_cases i
      · exact h0
      · exact h1
      · exact h2
      · exact h3
  have hfirst : ∀ j, j < 4 → (∀ i, i < j → adccPass T d i) → ¬ adccPass T d j →
      maxio_adcc_check T d = (-1, adccChanState T d (j + 1)) := by
    intro j hj hprev hfail
    rw [key]
    interval_cases j
    · rw [if_neg hfail]
    · rw [if_pos (hprev 0 (by omega)), if_neg hfail]
    · rw [if_pos (hprev 0 (by omega)), if_pos (hprev 1 (by omega)), if_neg hfail]
    · rw [if_pos (hprev 0 (by omega)), if_pos (hprev 1 (by omega)),
        if_pos (hprev 2 (by omega)), if_neg hfail]
  have hret : (∀ i, i < 4 → adccPass T d i) ∨ (maxio_adcc_check T d).1 = -1 := by
    by_cases h0 : adccPass T d 0
    · by_cases h1 : adccPass T d 1
      · by_cases h2 : adccPass T d 2
        · by_cases h3 : adccPass T d 3
          · exact Or.inl (hall.mpr ⟨h0, h1, h2, h3⟩)
          · right
            rw [hfirst 3 (by omega) (by
              intro i hi
              interval_cases i
              · exact h0
              · exact h1
              · exact h2) h3]
        · right
          rw [hfirst 2 (by omega) (by
            intro i hi
            interval_cases i
            · exact h0
            · exact h1) h2]
      · right
        rw [hfirst 1 (by omega) (by
          intro i hi
          interval_cases i
          exact h0) h1]
    · right
      rw [hfirst 0 (by omega) (by intro i hi; omega) h0]
  have hzero : (∀ i, i < 4 → adccPass T d i) → maxio_adcc_check T d
      = (0, adccChanState T d 4) := by
    intro h
    obtain ⟨h0, h1, h2, h3⟩ := hall.mp h
    rw [key, if_pos h0, if_pos h1, if_pos h2, if_pos h3]
  refine ⟨?_, ?_, ?_, ?_⟩
  · constructor
    · intro hz
      rcases hret with h | h
      · exact h
      · rw [h] at hz
        exact absurd hz (by decide)
    · intro h
      rw [hzero h]
  · rcases hret with h | h
    · left
      rw [hzero h]
    · exact Or.inr h
  · intro h
    rw [hzero h]
  · intro j hj hprev hfail
    have hr := hfirst j hj hprev hfail
    rw [hr]
    refine ⟨rfl, rfl, adccChanState_resultReads T d (j + 1), ?_⟩
    intro i
    rw [adccChanState_selectorWrites T d i (j + 1)]
    by_cases h : i ≤ j
    · rw [if_pos h, if_pos (by omega)]
    · rw [if_neg h, if_neg (by omega)]

/-- Witness for C15: on `chan3Bus` channels 0..2 pass and channel 3 fails; the
check returns `-1` after four result reads and four selector writes. -/
theorem adcc_check_channels_witness :
    (maxio_adcc_check chan3Bus (phy_device.init 0 none)).1 = -1
    ∧ (maxio_adcc_check chan3Bus (phy_device.init 0 none)).2.trace.count resultCall
        = (phy_device.init (0 : Nat) none).trace.count resultCall + (3 + 1) :=
  have h := (adcc_check_channels chan3Bus (phy_device.init 0 none)).2.2.2 3 (by decide)
    (by intro i hi; interval_cases i <;> decide) (by decide)
  ⟨h.1, h.2.2.1⟩

end Channels

/-! ## The status hook -/

section Status

variable {σ : Type}

/-- C11: when the generic link update succeeds, auto-negotiation is enabled,
the link was up before the call and is up after the update,
`maxio_mae0621a_status` returns `0` and does nothing beyond the generic update:
given that the generic update itself leaves them alone, no paged read is issued
and speed, duplex, pause, asym_pause and the debounce state are as before the
call. -/
theorem status_fast_path (K : Kernel σ) (T : Transport σ) (d : phy_device σ)
    (hok : (K.genphy_update_link d).1 = 0)
    (haneg : (K.genphy_update_link d).2.autoneg = AUTONEG_ENABLE)
    (hold : d.link ≠ 0) (hnew : (K.genphy_update_link d).2.link ≠ 0)
    (hframe : (K.genphy_update_link d).2.speed = d.speed
      ∧ (K.genphy_update_link d).2.duplex = d.duplex
      ∧ (K.genphy_update_link d).2.pause = d.pause
      ∧ (K.genphy_update_link d).2.asym_pause = d.asym_pause
      ∧ (K.genphy_update_link d).2.priv = d.priv
      ∧ pagedReadsIn (K.genphy_update_link d).2.trace = pagedReadsIn d.trace) :
    ∃ r, maxio_mae0621a_status K T d = some (0, r)
      ∧ r = (K.genphy_update_link d).2
      ∧ pagedReadsIn r.trace = pagedReadsIn d.trace
      ∧ r.speed = d.speed ∧ r.duplex = d.duplex ∧ r.pause = d.pause
      ∧ r.asym_pause = d.asym_pause ∧ r.priv = d.priv := by
  refine ⟨(K.genphy_update_link d).2, ?_, rfl, hframe.2.2.2.2.2, hframe.1, hframe.2.1,
    hframe.2.2.1, hframe.2.2.2.1, hframe.2.2.2.2.1⟩
  unfold maxio_mae0621a_status
  simp [hok, haneg, hold, hnew]

/-- Witness for C11: link up before and after, 1000M full duplex resolved,
debounce state `(0, 1)`: the status hook returns `0`, adds nothing to the
trace and keeps every field. -/
theorem status_fast_path_witness :
    maxio_mae0621a_status (simKernel true 1) (statusBus 0)
        { phy_device.init () (some (0, 1)) with link := 1, speed := 1000, duplex := 1 }
      = some (0, { phy_device.init () (some (0, 1)) with
                    link := 1, speed := 1000, duplex := 1 }) := by
  obtain ⟨r, h1, h2, _⟩ := status_fast_path (simKernel true 1) (statusBus 0)
    { phy_device.init () (some (0, 1)) with link := 1, speed := 1000, duplex := 1 }
    rfl rfl (by decide) (by decide) ⟨rfl, rfl, rfl, rfl, rfl, rfl⟩
  rw [h1, h2]
  rfl

theorem read_paged_speed (T : Transport σ) (d : phy_device σ) (page : Int) (regnum : Nat) :
    (maxio_read_paged T d page regnum).2.speed = d.speed := by
  unfold maxio_read_paged
  dsimp only
  split <;> rfl

theorem read_paged_priv (T : Transport σ) (d : phy_device σ) (page : Int) (regnum : Nat) :
    (maxio_read_paged T d page regnum).2.priv = d.priv := by
  unfold maxio_read_paged
  dsimp only
  split <;> rfl

theorem restart_aneg_speed (T : Transport σ) (d : phy_device σ) :
    (maxio_restart_aneg T d).2.speed = d.speed := by
  unfold maxio_restart_aneg
  dsimp only
  split <;> rfl

theorem debounce_speed (T : Transport σ) (d : phy_device σ) (insr c st : Int) :
    (maxio_debounce T d insr c st).2.speed = d.speed := by
  unfold maxio_debounce
  dsimp only
  split_ifs <;> first | rfl | exact restart_aneg_speed T d

/-- The resolver returns whenever the private data is attached. -/
theorem resolve_returns (T : Transport σ) (d : phy_device σ) (p : Int × Int)
    (hp : d.priv = some p) : ∃ d1, phy_resolve_link_compatibility_maxio T d = some d1 := by
  unfold phy_resolve_link_compatibility_maxio
  rw [hp]
  dsimp only
  split_ifs <;> exact ⟨_, rfl⟩

theorem resolve_speed (T : Transport σ) (d d1 : phy_device σ)
    (h : phy_resolve_link_compatibility_maxio T d = some d1) : d1.speed = d.speed := by
  unfold phy_resolve_link_compatibility_maxio at h
  cases hp : d.priv with
  | none => rw [hp] at h; exact Option.noConfusion h
  | some p =>
    rw [hp] at h
    dsimp only at h
    split_ifs at h <;> injection h with h <;> subst h
    · show (maxio_debounce T _ _ _ _).2.speed = _
      rw [debounce_speed, read_paged_speed, read_paged_speed, read_paged_speed]
    · show (maxio_read_paged T _ _ _).2.speed = _
      rw [read_paged_speed, read_paged_speed]
    · show (maxio_read_paged T _ _ _).2.speed = _
      rw [read_paged_speed]

/-- The speed left by `phy_resolve_aneg_linkmode_maxio` on a device whose speed
was reset to unknown, the link-partner read leaving the speed alone. -/
theorem linkmode_speed (K : Kernel σ) (T : Transport σ) (d : phy_device σ)
    (hd : d.speed = SPEED_UNKNOWN)
    (hlpa : ∀ x, (K.genphy_read_lpa x).2.speed = x.speed) :
    (phy_resolve_aneg_linkmode_maxio K T d).speed
      = speed_decode_table (c_and (maxio_read_paged T d 0xa43 0x1a).1 0x30) := by
  have hs := read_paged_speed T d 0xa43 0x1a
  unfold phy_resolve_aneg_linkmode_maxio speed_decode_table
  simp only [MAXIO_PHYSR_P_A43, MAXIO_PHY_SPEED, MAXIO_PHY_1000M, MAXIO_PHY_100M,
    MAXIO_PHY_10M]
  split_ifs <;> simp_all [PHY_READ]

theorem linkmode_priv (K : Kernel σ) (T : Transport σ) (d : phy_device σ)
    (hlpa : ∀ x, (K.genphy_read_lpa x).2.priv = x.priv) :
    (phy_resolve_aneg_linkmode_maxio K T d).priv = d.priv := by
  have hs := read_paged_priv T d 0xa43 0x1a
  unfold phy_resolve_aneg_linkmode_maxio
  simp only [MAXIO_PHYSR_P_A43]
  split_ifs <;> simp_all [PHY_READ]

theorem nat_and_48 (n : Nat) :
    n &&& 48 = 0 ∨ n &&& 48 = 16 ∨ n &&& 48 = 32 ∨ n &&& 48 = 48 := by
  have h1 : n &&& 48 = (n % 64) &&& 48 := by
    have h48 : (48 : Nat) = 63 &&& 48 := by decide
    conv_lhs => rw [h48, ← Nat.and_assoc]
    have h63 : n &&& 63 = n % 64 := Nat.and_pow_two_sub_one_eq_mod n 6
    rw [h63]
  rw [h1]
  have hlt : n % 64 < 64 := Nat.mod_lt _ (by decide)
  generalize n % 64 = m at hlt
  interval_cases m <;> decide

/-- The speed field `v & 0x30` takes one of four values. -/
theorem c_and_speed_mask (v : Int) :
    c_and v 0x30 = 0x00 ∨ c_and v 0x30 = 0x10 ∨ c_and v 0x30 = 0x20
      ∨ c_and v 0x30 = 0x30 := by
  unfold c_and
  have e : toU32 0x30 = 48 := by decide
  rw [e]
  rcases nat_and_48 (toU32 v) with h | h | h | h <;> rw [h] <;> decide

/-- C12: on the non-fast path of `maxio_mae0621a_status` (the generic update
succeeded, the debounce state is attached, the generic link-partner read
leaves speed and private data alone) the hook returns `0` and the resolved
speed is the specification's table applied to `v & 0x30`, `v` being the value
read from (page `0xa43`, register `0x1a`): `0x20` gives 1000M, `0x10` gives
100M, `0x00` gives 10M, anything else, which can only be `0x30`, leaves the
speed unknown. -/
theorem status_speed_decode (K : Kernel σ) (T : Transport σ) (d : phy_device σ)
    (p : Int × Int)
    (hok : (K.genphy_update_link d).1 = 0)
    (hslow : ¬ ((K.genphy_update_link d).2.autoneg = AUTONEG_ENABLE ∧ d.link ≠ 0
      ∧ (K.genphy_update_link d).2.link ≠ 0))
    (hpriv : (K.genphy_update_link d).2.priv = some p)
    (hlpa : ∀ x, (K.genphy_read_lpa x).2.speed = x.speed
      ∧ (K.genphy_read_lpa x).2.priv = x.priv) :
    ∃ r, maxio_mae0621a_status K T d = some (0, r)
      ∧ r.speed = speed_decode_table
          (c_and (maxio_read_paged T (maxio_status_reset (K.genphy_update_link d).2)
            0xa43 0x1a).1 0x30)
      ∧ (r.speed = SPEED_UNKNOWN ↔
          c_and (maxio_read_paged T (maxio_status_reset (K.genphy_update_link d).2)
            0xa43 0x1a).1 0x30 = 0x30) := by
  have hmask := c_and_speed_mask
    (maxio_read_paged T (maxio_status_reset (K.genphy_update_link d).2) 0xa43 0x1a).1
  have htab : ∀ m : Int, (m = 0x00 ∨ m = 0x10 ∨ m = 0x20 ∨ m = 0x30) →
      (speed_decode_table m = SPEED_UNKNOWN ↔ m = 0x30) := by
    intro m hm
    rcases hm with h | h | h | h <;> subst h <;> decide
  have hsp := linkmode_speed K T (maxio_status_reset (K.genphy_update_link d).2) rfl
    (fun x => (hlpa x).1)
  have hpr : (phy_resolve_aneg_linkmode_maxio K T
      (maxio_status_reset (K.genphy_update_link d).2)).priv = some p := by
    rw [linkmode_priv K T _ (fun x => (hlpa x).2)]
    exact hpriv
  unfold maxio_mae0621a_status
  simp only [hok, ne_eq, not_true_eq_false, if_false, hslow]
  split_ifs with ha
  · obtain ⟨d1, hd1⟩ := resolve_returns T _ p hpr
    have hsd : d1.speed = speed_decode_table
        (c_and (maxio_read_paged T (maxio_status_reset (K.genphy_update_link d).2)
          0xa43 0x1a).1 0x30) := by
      rw [resolve_speed T _ d1 hd1, hsp]
    refine ⟨d1, by rw [hd1]; rfl, hsd, ?_⟩
    rw [hsd]
    exact htab _ hmask
  · refine ⟨_, rfl, hsp, ?_⟩
    rw [hsp]
    exact htab _ hmask

/-- Witness for C12: register `0x1a` holding `0x00`, `0x10`, `0x20`, `0x30`
resolves to 10M, 100M, 1000M and unknown. -/
theorem status_speed_decode_witness :
    (∃ r, maxio_mae0621a_status (simKernel true 1) plainRegs
        (phy_device.init (fun x => if x = 0x1a then 0x00 else 0) (some (0, 0)))
          = some (0, r) ∧ r.speed = SPEED_10)
    ∧ (∃ r, maxio_mae0621a_status (simKernel true 1) plainRegs
        (phy_device.init (fun x => if x = 0x1a then 0x10 else 0) (some (0, 0)))
          = some (0, r) ∧ r.speed = SPEED_100)
    ∧ (∃ r, maxio_mae0621a_status (simKernel true 1) plainRegs
        (phy_device.init (fun x => if x = 0x1a then 0x20 else 0) (some (0, 0)))
          = some (0, r) ∧ r.speed = SPEED_1000)
    ∧ (∃ r, maxio_mae0621a_status (simKernel true 1) plainRegs
        (phy_device.init (fun x => if x = 0x1a then 0x30 else 0) (some (0, 0)))
          = some (0, r) ∧ r.speed = SPEED_UNKNOWN) := by
  refine ⟨?_, ?_, ?_, ?_⟩
  · obtain ⟨r, h1, h2⟩ := status_speed_decode (simKernel true 1) plainRegs
      (phy_device.init (fun x => if x = 0x1a then 0x00 else 0) (some (0, 0))) (0, 0)
      rfl (by decide) rfl (fun _ => ⟨rfl, rfl⟩)
    exact ⟨r, h1, h2.1.trans (by decide)⟩
  · obtain ⟨r, h1, h2⟩ := status_speed_decode (simKernel true 1) plainRegs
      (phy_device.init (fun x => if x = 0x1a then 0x10 else 0) (some (0, 0))) (0, 0)
      rfl (by decide) rfl (fun _ => ⟨rfl, rfl⟩)
    exact ⟨r, h1, h2.1.trans (by decide)⟩
  · obtain ⟨r, h1, h2⟩ := status_speed_decode (simKernel true 1) plainRegs
      (phy_device.init (fun x => if x = 0x1a then 0x20 else 0) (some (0, 0))) (0, 0)
      rfl (by decide) rfl (fun _ => ⟨rfl, rfl⟩)
    exact ⟨r, h1, h2.1.trans (by decide)⟩
  · obtain ⟨r, h1, h2⟩ := status_speed_decode (simKernel true 1) plainRegs
      (phy_device.init (fun x => if x = 0x1a then 0x30 else 0) (some (0, 0))) (0, 0)
      rfl (by decide) rfl (fun _ => ⟨rfl, rfl⟩)
    exact ⟨r, h1, h2.1.trans (by decide)⟩

end Status

/-! ## The probe hooks -/

section Probe

variable {σ : Type}

/-- C13 (amended): with a successful allocation `maxio_mae0621a_probe` attaches
the debounce state `(0, 0)`, writes `0` to the page-select register, waits and
returns `0`; `maxio_mae0621aq3ci_probe` attaches the debounce state `(0, 0)` and
returns `0` without any bus operation.  With a failed allocation both return
`-ENOMEM` and leave the device as it was. -/
theorem probe_hooks (T : Transport σ) (d : phy_device σ) :
    ((maxio_mae0621a_probe T d true).1 = 0
      ∧ (maxio_mae0621a_probe T d true).2.priv = some (0, 0)
      ∧ (maxio_mae0621a_probe T d true).2.trace
          = d.trace ++ [Event.printk,
              Event.write MAXIO_PAGE_SELECT 0 (T.phy_write d.bus MAXIO_PAGE_SELECT 0).1,
              Event.mdelay 100])
    ∧ ((maxio_mae0621aq3ci_probe T d true).1 = 0
      ∧ (maxio_mae0621aq3ci_probe T d true).2.priv = some (0, 0)
      ∧ (maxio_mae0621aq3ci_probe T d true).2.trace = d.trace ++ [Event.printk]
      ∧ (maxio_mae0621aq3ci_probe T d true).2.bus = d.bus)
    ∧ (maxio_mae0621a_probe T d false = (-ENOMEM, d) ∧ -ENOMEM < 0)
    ∧ maxio_mae0621aq3ci_probe T d false = (-ENOMEM, d) := by
  refine ⟨⟨rfl, rfl, ?_⟩, ⟨rfl, rfl, rfl, rfl⟩, ⟨rfl, by decide⟩, rfl⟩
  simp [maxio_mae0621a_probe, mdelay, PHY_WRITE, printk, phy_device.log, toU16]

/-- C13 (counterexample): on a plain register memory whose page-select register
holds `7`, `maxio_mae0621aq3ci_probe` with a successful allocation issues no
bus operation at all and the register still holds `7`. -/
theorem q3ci_probe_leaves_page_select :
    (maxio_mae0621aq3ci_probe plainRegs (phy_device.init (fun _ => 7) none) true).1 = 0
    ∧ (maxio_mae0621aq3ci_probe plainRegs (phy_device.init (fun _ => 7) none) true).2.trace
        = [Event.printk]
    ∧ (maxio_mae0621aq3ci_probe plainRegs (phy_device.init (fun _ => 7) none) true).2.bus
        MAXIO_PAGE_SELECT = 7 := by
  decide

end Probe

/-! ## The link debounce machine, step by step -/

section DebounceSteps

variable {σ : Type}

theorem toU32_lt (x : Int) : toU32 x < 4294967296 := by
  unfold toU32
  omega

theorem toU32_ofU32 (n : Nat) (h : n < 4294967296) : toU32 (ofU32 n) = n := by
  unfold toU32 ofU32
  split_ifs <;> omega

/-- C `|` on `int` is associative. -/
theorem c_or_assoc (a b c : Int) : c_or (c_or a b) c = c_or a (c_or b c) := by
  have h32 : (4294967296 : Nat) = 2 ^ 32 := by norm_num
  have hab : toU32 a ||| toU32 b < 4294967296 := by
    rw [h32]
    exact Nat.or_lt_two_pow (by rw [← h32]; exact toU32_lt a) (by rw [← h32]; exact toU32_lt b)
  have hbc : toU32 b ||| toU32 c < 4294967296 := by
    rw [h32]
    exact Nat.or_lt_two_pow (by rw [← h32]; exact toU32_lt b) (by rw [← h32]; exact toU32_lt c)
  unfold c_or
  rw [toU32_ofU32 _ hab, toU32_ofU32 _ hbc, Nat.lor_assoc]

/-- The trace of a forced restart: its entry, the control-register read and,
when that read succeeds, the control-register write. -/
theorem restart_aneg_trace_eq (T : Transport σ) (d : phy_device σ) :
    (maxio_restart_aneg T d).2.trace
      = d.trace ++ restartCall :: Event.read MII_BMCR (T.phy_read d.bus MII_BMCR).1 ::
          (if (T.phy_read d.bus MII_BMCR).1 < 0 then []
            else [Event.write MII_BMCR
              (toU16 (c_and (c_or (c_or (T.phy_read d.bus MII_BMCR).1 BMCR_ANENABLE)
                BMCR_ANRESTART) (c_not BMCR_ISOLATE)))
              (T.phy_write (T.phy_read d.bus MII_BMCR).2 MII_BMCR
                (toU16 (c_and (c_or (c_or (T.phy_read d.bus MII_BMCR).1 BMCR_ANENABLE)
                  BMCR_ANRESTART) (c_not BMCR_ISOLATE)))).1]) := by
  rw [c_or_assoc]
  unfold maxio_restart_aneg
  by_cases h : (T.phy_read d.bus MII_BMCR).1 < 0
  · simp [PHY_READ, phy_device.log, h, restartCall]
  · simp [PHY_READ, PHY_WRITE, phy_device.log, h, restartCall]

/-- C16: from a debounce state `(c, false)` with `c < 4`, one invocation that
sees the interrupt enabled, the link OK and auto-negotiation not completed
issues exactly one restart, sets `phydev->link` to `0` and leaves the state at
`(c + 1, false)`.  The restart reads the control register and, when the read
succeeds with value `ctl`, writes back
`(ctl | BMCR_ANENABLE | BMCR_ANRESTART) & ~BMCR_ISOLATE`; these are the last
events of the invocation. -/
theorem debounce_restart_step (T : Transport σ) (d : phy_device σ) (c : Int)
    (hp : d.priv = some (c, 0)) (hs : AnegPending T d) (hc : c < 4) :
    ∃ d1, phy_resolve_link_compatibility_maxio T d = some d1
      ∧ d1.priv = some (c + 1, 0)
      ∧ d1.link = 0
      ∧ restartsIn d1.trace = restartsIn d.trace + 1
      ∧ restartsIn (afterStatusReads T d).trace = restartsIn d.trace
      ∧ d1.trace = (afterStatusReads T d).trace ++ restartCall ::
          Event.read MII_BMCR (T.phy_read (afterStatusReads T d).bus MII_BMCR).1 ::
          (if (T.phy_read (afterStatusReads T d).bus MII_BMCR).1 < 0 then []
            else [Event.write MII_BMCR
              (toU16 (c_and (c_or (c_or (T.phy_read (afterStatusReads T d).bus MII_BMCR).1
                BMCR_ANENABLE) BMCR_ANRESTART) (c_not BMCR_ISOLATE)))
              (T.phy_write (T.phy_read (afterStatusReads T d).bus MII_BMCR).2 MII_BMCR
                (toU16 (c_and (c_or (c_or
                  (T.phy_read (afterStatusReads T d).bus MII_BMCR).1
                  BMCR_ANENABLE) BMCR_ANRESTART) (c_not BMCR_ISOLATE)))).1]) := by
  refine ⟨_, resolve_pending_restart T d c hp hs hc, rfl, rfl, ?_,
    afterStatusReads_restarts T d, ?_⟩
  · show restartsIn (maxio_restart_aneg T (afterStatusReads T d)).2.trace = _
    rw [restart_aneg_restarts, afterStatusReads_restarts]
  · exact restart_aneg_trace_eq T (afterStatusReads T d)

/-- Witness for C16: on `statusBus 0` from state `(2, 0)` the invocation ends
in `(3, 0)` with the link down and one restart, which reads `0` from the
control register and writes back `0x1200`. -/
theorem debounce_restart_step_witness :
    ∃ d1, phy_resolve_link_compatibility_maxio (statusBus 0)
        (phy_device.init () (some (2, 0))) = some d1
      ∧ d1.priv = some (3, 0) ∧ d1.link = 0
      ∧ restartsIn d1.trace = 1
      ∧ d1.trace.drop 15 = [restartCall, Event.read 0 0, Event.write 0 0x1200 0] := by
  obtain ⟨d1, h1, h2, h3, h4, _, h6⟩ := debounce_restart_step (statusBus 0)
    (phy_device.init () (some (2, 0))) 2 rfl (statusBus_pending _) (by decide)
  refine ⟨d1, h1, h2, h3, h4, ?_⟩
  rw [h6]
  decide

/-- A paged read touches no register other than page-select and its own. -/
theorem read_paged_accesses (T : Transport σ) (d : phy_device σ) (page : Int)
    (regnum r : Nat) (h1 : r ≠ MAXIO_PAGE_SELECT) (h2 : r ≠ regnum) :
    accessesIn r (maxio_read_paged T d page regnum).2.trace = accessesIn r d.trace := by
  have e1 : (MAXIO_PAGE_SELECT == r) = false := by
    simpa using fun h => h1 h.symm
  have e2 : (regnum == r) = false := by
    simpa using fun h => h2 h.symm
  unfold accessesIn
  by_cases h : 0 ≤ (T.phy_read d.bus MAXIO_PAGE_SELECT).1
  · simp [maxio_read_paged, PHY_READ, PHY_WRITE, phy_device.log, h, List.countP_append,
      List.countP_cons, Event.touches, e1, e2]
  · simp [maxio_read_paged, PHY_READ, PHY_WRITE, phy_device.log, h, List.countP_append,
      List.countP_cons, Event.touches, e1]

/-- C17: from any debounce state `(c, st)`, one invocation that sees the
interrupt enabled and the link-OK bit clear sets `is_stable` to false, keeps
`consecutive_incomplete_count`, issues no restart, does not read the
autoneg-completion register (page `0xa43`, register `0x1d`: no paged read of it,
no bus transaction on register `0x1d`) and does not modify `phydev->link`. -/
theorem debounce_link_lost (T : Transport σ) (d : phy_device σ) (c st : Int)
    (hp : d.priv = some (c, st)) (hs : LinkLost T d) :
    ∃ d1, phy_resolve_link_compatibility_maxio T d = some d1
      ∧ d1.priv = some (c, 0)
      ∧ restartsIn d1.trace = restartsIn d.trace
      ∧ d1.trace.count (Event.call Fn.maxio_read_paged [0xa43, 0x1d])
          = d.trace.count (Event.call Fn.maxio_read_paged [0xa43, 0x1d])
      ∧ accessesIn 0x1d d1.trace = accessesIn 0x1d d.trace
      ∧ d1.link = d.link := by
  obtain ⟨h1, h2⟩ := hs
  simp only [statusWords] at h1 h2
  have key : phy_resolve_link_compatibility_maxio T d
      = some { (maxio_read_paged T (maxio_read_paged T d 0xa42 0x12).2 0xa43 0x1a).2 with
                priv := some (c, 0) } := by
    simp [phy_resolve_link_compatibility_maxio, hp, h1, h2]
  refine ⟨_, key, rfl, ?_, ?_, ?_, ?_⟩
  · show restartsIn (maxio_read_paged T _ _ _).2.trace = _
    rw [read_paged_restarts, read_paged_restarts]
  · show (maxio_read_paged T _ _ _).2.trace.count _ = _
    rw [read_paged_count T _ _ _ (Event.call Fn.maxio_read_paged [0xa43, 0x1d]) rfl,
      read_paged_count T _ _ _ (Event.call Fn.maxio_read_paged [0xa43, 0x1d]) rfl]
    simp
  · show accessesIn 0x1d (maxio_read_paged T _ _ _).2.trace = _
    rw [read_paged_accesses T _ _ _ _ (by decide) (by decide),
      read_paged_accesses T _ _ _ _ (by decide) (by decide)]
  · show (maxio_read_paged T _ _ _).2.link = _
    rw [read_paged_link, read_paged_link]

/-- Witness for C17: on a plain register memory whose interrupt-enable
register holds `0x28` and whose other registers hold `0` (link not OK), an
invocation from state `(2, 1)` ends in `(2, 0)`. -/
theorem debounce_link_lost_witness :
    ∃ d1, phy_resolve_link_compatibility_maxio plainRegs
        (phy_device.init (fun r => if r = 0x12 then 0x28 else 0) (some (2, 1))) = some d1
      ∧ d1.priv = some (2, 0) ∧ restartsIn d1.trace = 0 ∧ accessesIn 0x1d d1.trace = 0 := by
  obtain ⟨d1, h1, h2, h3, _, h5, _⟩ := debounce_link_lost plainRegs
    (phy_device.init (fun r => if r = 0x12 then 0x28 else 0) (some (2, 1))) 2 1 rfl
    (by unfold LinkLost; decide)
  exact ⟨d1, h1, h2, h3, h5⟩

theorem debounce_inv (T : Transport σ) (d : phy_device σ) (insr a st : Int)
    (h : DebounceInv (a, st)) : DebounceInv (maxio_debounce T d insr a st).1 := by
  unfold DebounceInv at *
  unfold maxio_debounce
  dsimp only at *
  split_ifs with h1 h2 h3 h4 h5 h6 h7 h8 <;> dsimp only at * <;> omega

/-- One invocation of the resolver keeps the bounds on the debounce state. -/
theorem resolve_preserves_inv (T : Transport σ) (d d1 : phy_device σ) (p p1 : Int × Int)
    (hp : d.priv = some p) (hr : phy_resolve_link_compatibility_maxio T d = some d1)
    (hp1 : d1.priv = some p1) (hinv : DebounceInv p) : DebounceInv p1 := by
  unfold phy_resolve_link_compatibility_maxio at hr
  rw [hp] at hr
  dsimp only at hr
  split_ifs at hr <;> injection hr with hr <;> subst hr <;>
    simp only [Option.some.injEq] at hp1 <;> subst hp1
  · exact debounce_inv T _ _ _ _ hinv
  · unfold DebounceInv at *
    dsimp only at *
    omega
  · exact hinv

/-- C18: every debounce state reachable from a successful probe by any finite
sequence of resolver invocations, with arbitrary register readings, satisfies
`0 ≤ consecutive_incomplete_count ≤ 4`, `is_stable` is `0` or `1`, and
`is_stable = 1` implies `consecutive_incomplete_count = 0`. -/
theorem debounce_reachable_invariant (T : Transport σ) (p : Int × Int)
    (h : Reachable T p) : DebounceInv p := by
  induction h with
  | probe_q2c d p hp =>
    have e : p = (0, 0) := by
      have : (maxio_mae0621a_probe T d true).2.priv = some (0, 0) := rfl
      rw [this] at hp
      exact (Option.some.inj hp).symm
    subst e
    unfold DebounceInv
    decide
  | probe_q3c d p hp =>
    have e : p = (0, 0) := by
      have : (maxio_mae0621aq3ci_probe T d true).2.priv = some (0, 0) := rfl
      rw [this] at hp
      exact (Option.some.inj hp).symm
    subst e
    unfold DebounceInv
    decide
  | poll d d1 p p1 _ hp hr hp1 ih => exact resolve_preserves_inv T d d1 p p1 hp hr hp1 ih

/-- Witness for C18: on `statusBus 0` the state `(1, 0)` is reached by one
invocation after the probe, and it satisfies the bounds. -/
theorem debounce_reachable_invariant_witness :
    Reachable (statusBus 0) ((1 : Int), (0 : Int)) ∧ DebounceInv ((1 : Int), (0 : Int)) := by
  have hr : Reachable (statusBus 0) ((1 : Int), (0 : Int)) :=
    Reachable.poll (phy_device.init () (some (0, 0))) _ (0, 0) (1, 0)
      (Reachable.probe_q2c (phy_device.init () none) (0, 0) rfl) rfl
      (resolve_pending_restart (statusBus 0) (phy_device.init () (some (0, 0))) 0 rfl
        (statusBus_pending _) (by decide)) rfl
  exact ⟨hr, debounce_reachable_invariant (statusBus 0) (1, 0) hr⟩

/-- The debounce decision in a stable state: no restart, the device is left
alone and the state stays stable. -/
theorem debounce_stable (T : Transport σ) (d : phy_device σ) (insr c st : Int)
    (hst : st ≠ 0) :
    (maxio_debounce T d insr c st).2 = d
      ∧ (maxio_debounce T d insr c st).1.2 ≠ 0
      ∧ (st = 1 → (maxio_debounce T d insr c st).1.2 = 1) := by
  have hfirst : ¬ (c_and insr AUTONEG_COMPLETED = 0 ∧ st = 0) := fun h => hst h.2
  unfold maxio_debounce
  dsimp only
  rw [if_neg hfirst]
  split_ifs with h1 h2 h3 <;> dsimp only at * <;> refine ⟨rfl, ?_, ?_⟩ <;> omega

/-- One invocation from a stable state while the link holds. -/
theorem resolve_stable_step (T : Transport σ) (d : phy_device σ) (c st : Int)
    (hst : st ≠ 0) (hp : d.priv = some (c, st)) (hheld : LinkHeld T d) :
    ∃ d1 c1 st1, phy_resolve_link_compatibility_maxio T d = some d1
      ∧ d1.priv = some (c1, st1) ∧ st1 ≠ 0 ∧ (st = 1 → st1 = 1)
      ∧ restartsIn d1.trace = restartsIn d.trace
      ∧ d1.link = d.link := by
  unfold LinkHeld statusWords at hheld
  dsimp only at hheld
  unfold phy_resolve_link_compatibility_maxio
  rw [hp]
  dsimp only
  by_cases hie : c_and (maxio_read_paged T d 0xa42 0x12).1 AUTONEG_COMPLETED_INT_EN = 0
  · rw [if_neg (not_not.mpr hie)]
    exact ⟨_, c, st, rfl, rfl, hst, fun _ => by assumption, read_paged_restarts T d _ _,
      read_paged_link T d _ _⟩
  · have hlk := hheld.resolve_left hie
    rw [if_pos hie, if_pos hlk]
    obtain ⟨h1, h2, h3⟩ := debounce_stable T (afterStatusReads T d)
      (maxio_read_paged T (maxio_read_paged T (maxio_read_paged T d 0xa42 0x12).2
        0xa43 0x1a).2 0xa43 0x1d).1 c st hst
    refine ⟨_, _, _, rfl, rfl, h2, h3, ?_, ?_⟩
    · show restartsIn (maxio_debounce T (afterStatusReads T d) _ c st).2.trace = _
      rw [h1, afterStatusReads_restarts]
    · show (maxio_debounce T (afterStatusReads T d) _ c st).2.link = _
      rw [h1, afterStatusReads_link]

/-- C19: from any debounce state with `is_stable` true, along any finite
sequence of invocations each of which sees the interrupt disabled or the link
OK (auto-negotiation completed or not), no invocation issues a restart or
changes `phydev->link`, and `is_stable` stays true (and stays `1` if it was
`1`). -/
theorem stable_never_restarted (T : Transport σ) (d0 : phy_device σ) (c st : Int)
    (hst : st ≠ 0) (hp : d0.priv = some (c, st)) (n : Nat)
    (hheld : ∀ i, i < n → ∀ di, polls T i d0 = some di → LinkHeld T di) :
    ∀ i, i ≤ n → ∃ di ci sti, polls T i d0 = some di
      ∧ di.priv = some (ci, sti) ∧ sti ≠ 0 ∧ (st = 1 → sti = 1)
      ∧ restartsIn di.trace = restartsIn d0.trace
      ∧ di.link = d0.link := by
  intro i
  induction i with
  | zero => intro _; exact ⟨d0, c, st, rfl, hp, hst, fun h => h, rfl, rfl⟩
  | succ i ih =>
    intro hi
    obtain ⟨di, ci, sti, hpoll, hpriv, hne, hone, hcnt, hlink⟩ := ih (by omega)
    obtain ⟨d1, c1, st1, hr, hp1, hne1, hone1, hcnt1, hlink1⟩ :=
      resolve_stable_step T di ci sti hne hpriv (hheld i (by omega) di hpoll)
    refine ⟨d1, c1, st1, ?_, hp1, hne1, fun h => hone1 (hone h), ?_, ?_⟩
    · have hs : polls T (i + 1) d0
          = (polls T i d0).bind (phy_resolve_link_compatibility_maxio T) := rfl
      rw [hs, hpoll]
      exact hr
    · rw [hcnt1, hcnt]
    · rw [hlink1, hlink]

/-- Witness for C19: on `statusBus 0` (link OK, auto-negotiation never
completed) a device in state `(0, 1)` with the link up goes through three
invocations without a restart, keeps its link and stays stable. -/
theorem stable_never_restarted_witness :
    ∃ d3 c3, polls (statusBus 0) 3
        { phy_device.init () (some (0, 1)) with link := 1 } = some d3
      ∧ d3.priv = some (c3, 1) ∧ restartsIn d3.trace = 0 ∧ d3.link = 1 := by
  obtain ⟨d3, c3, st3, h1, h2, _, h4, h5, h6⟩ := stable_never_restarted (statusBus 0)
    { phy_device.init () (some (0, 1)) with link := 1 } 0 1 (by decide) rfl 3
    (fun _ _ di _ => Or.inr (statusBus_pending di).2.1) 3 (le_refl 3)
  have e : st3 = 1 := h4 rfl
  subst e
  exact ⟨d3, c3, h1, h2, h5, h6⟩

end DebounceSteps

/-! ## Failed result reads in the calibration check -/

section FailedReads

variable {σ : Type}

/-- The low nine bits of a small negative error code. -/
theorem c_and_low9_of_error (r : Int) (h1 : -511 ≤ r) (h2 : r ≤ -1) :
    c_and r 0x1ff = r + 512 := by
  unfold c_and
  have e : toU32 0x1ff = 511 := by decide
  have hmod : ∀ n : Nat, n &&& 511 = n % 512 := fun n => Nat.and_pow_two_sub_one_eq_mod n 9
  rw [e, hmod]
  unfold toU32 ofU32
  split_ifs with hlt <;> omega

/-- A paged read whose page-select read succeeds returns what the bus read of
its register returns. -/
theorem read_paged_value (T : Transport σ) (d : phy_device σ) (page : Int) (regnum : Nat)
    (h : 0 ≤ (T.phy_read d.bus MAXIO_PAGE_SELECT).1) :
    ∃ b, (maxio_read_paged T d page regnum).1 = (T.phy_read b regnum).1 :=
  ⟨(T.phy_write (T.phy_read d.bus MAXIO_PAGE_SELECT).2 MAXIO_PAGE_SELECT (toU16 page)).2,
    by simp [maxio_read_paged, PHY_READ, PHY_WRITE, phy_device.log, h]⟩

/-- C20: a negative error code `r` with `-511 ≤ r ≤ -1` has `r & 0x1ff ≠ 0`;
hence on a transport whose page-select reads succeed and whose reads of the
result register `0xb` all fail with such a code, every channel is accepted,
`maxio_adcc_check` returns `0`, and `maxio_self_check` with `checknum ≥ 1`
reports convergence after a single check and no recovery. -/
theorem failed_result_read_counts_as_pass (T : Transport σ) (d : phy_device σ)
    (checknum : Int) (hn : 1 ≤ checknum)
    (hsel : ∀ b, 0 ≤ (T.phy_read b MAXIO_PAGE_SELECT).1)
    (herr : ∀ b, -511 ≤ (T.phy_read b 0xb).1 ∧ (T.phy_read b 0xb).1 ≤ -1) :
    (∀ r : Int, -511 ≤ r → r ≤ -1 → c_and r 0x1ff ≠ 0)
    ∧ (∀ i, i < 4 → adccPass T d i)
    ∧ (maxio_adcc_check T d).1 = 0
    ∧ (maxio_self_check T d checknum).1 = 0
    ∧ checksIn (maxio_self_check T d checknum).2.trace = checksIn d.trace + 1
    ∧ recoveriesIn (maxio_self_check T d checknum).2.trace = recoveriesIn d.trace := by
  have hbits : ∀ r : Int, -511 ≤ r → r ≤ -1 → c_and r 0x1ff ≠ 0 := by
    intro r h1 h2
    rw [c_and_low9_of_error r h1 h2]
    omega
  have hpass : ∀ (x : phy_device σ) (i : Int),
      c_and (maxio_adcc_channel T x i).1 0x1ff ≠ 0 := by
    intro x i
    unfold maxio_adcc_channel
    obtain ⟨b, hb⟩ := read_paged_value T
      (maxio_write_paged T x 0xd8f 0xb (0xf908 + i * 0x100)).2 0xd92 0xb (hsel _)
    dsimp only
    rw [hb]
    exact hbits _ (herr b).1 (herr b).2
  have hall : ∀ i, i < 4 → adccPass T d i := fun i _ => hpass _ _
  have hcheck : ∀ x : phy_device σ, (maxio_adcc_check T x).1 = 0 := by
    intro x
    have p0 : adccPass T x 0 := hpass _ _
    have p1 : adccPass T x 1 := hpass _ _
    have p2 : adccPass T x 2 := hpass _ _
    have p3 : adccPass T x 3 := hpass _ _
    rw [adcc_check_cases T x, if_pos p0, if_pos p1, if_pos p2, if_pos p3]
  obtain ⟨m, hm⟩ : ∃ m, checknum.toNat = m + 1 := ⟨checknum.toNat - 1, by omega⟩
  have hloop : maxio_self_check_loop T checknum.toNat 0 d
      = (0, printk (maxio_adcc_check T d).2) := by
    rw [hm]
    simp [maxio_self_check_loop, hcheck d]
  refine ⟨hbits, hall, hcheck d, ?_, ?_, ?_⟩
  · unfold maxio_self_check
    rw [hloop]
  · unfold maxio_self_check
    rw [hloop]
    unfold checksIn
    rw [(finish_trace T _).count adccCall rfl]
    have h1 := adcc_check_checks T d
    unfold checksIn at h1
    simp only [printk, phy_device.log, List.count_append, h1]
    simp [adccCall]
  · unfold maxio_self_check
    rw [hloop]
    unfold recoveriesIn
    rw [(finish_trace T _).count (Event.msleep 10) rfl]
    have h1 := adcc_check_recoveries T d
    unfold recoveriesIn at h1
    simp only [printk, phy_device.log, List.count_append, h1]
    simp

/-- Witness for C20: on `errBus` every result read fails with `-5`; the
self-check with `checknum = 50` returns `0` after one check. -/
theorem failed_result_read_counts_as_pass_witness :
    c_and (-5) 0x1ff = 507
    ∧ (maxio_self_check errBus (phy_device.init () none) 50).1 = 0
    ∧ checksIn (maxio_self_check errBus (phy_device.init () none) 50).2.trace = 1 := by
  have h := failed_result_read_counts_as_pass errBus (phy_device.init () none) 50
    (by decide) (fun _ => by simp [errBus, MAXIO_PAGE_SELECT])
    (fun _ => by simp [errBus])
  exact ⟨by decide, h.2.2.2.1, h.2.2.2.2.1⟩

end FailedReads

end Maxio
